import Mathlib

/-!
Fiber bookkeeping of NativeExecutive (`CExecutiveManager.fiber.h`).

A shallow embedding of `CFiber` and of its inline members `resume` and `yield`.

* Pointers (`Fiber*`, `CFiber*`, `CExecutiveManager*`, ...) are addresses, kept as `Nat`;
  no arithmetic is ever done on them.
* `resumeTimer` is a `double` that the header only stores; it is kept as the
  stored value (a `Nat` standing for its bit pattern).
* The memory maps every address to the `CFiber` object that lives there and every
  thread to its active-fiber stack.
* Every call of `eswitch` / `qswitch` is appended to a log together with the memory
  as it was at the instant control left, so that "before the switch" is observable.
* `assert` is taken with assertions enabled: a failed assertion aborts the call
  and hands back the state at the abort (`Except.error`).
-/

namespace NativeExecutive

/-- The enum `eFiberStatus`. -/
inductive eFiberStatus where
  | FIBER_RUNNING
  | FIBER_SUSPENDED
  | FIBER_TERMINATED
  deriving DecidableEq, Repr

/-- An intrusive list node (`RwListEntry <CFiber>`): two links. -/
structure RwListEntry where
  next : Nat
  prev : Nat
  deriving DecidableEq, Repr

/-- The class `CFiber`, with the members of its base `FiberStatus`
(`callee`, `termcb`, `status`) first, in declaration order. -/
structure CFiber where
  callee : Nat
  termcb : Nat
  status : eFiberStatus
  runtime : Nat
  userdata : Nat
  callback : Nat
  node : RwListEntry
  groupNode : RwListEntry
  group : Nat
  manager : Nat
  resumeTimer : Nat
  deriving DecidableEq, Repr

/-- The bookkeeping memory: the `CFiber` object at each address and the
active-fiber stack of each thread (head of the list = top of the stack). -/
structure Mem where
  fibers : Nat → CFiber
  fiberStack : Nat → List Nat

/-- Which of the two native switch routines was called. -/
inductive SwitchKind where
  | eswitch
  | qswitch
  deriving DecidableEq, Repr

/-- One performed context switch: the routine, its two arguments
(`Fiber *from, Fiber *to`) and the memory at the instant of the call. -/
structure SwitchRecord where
  kind : SwitchKind
  from_ : Nat
  to_ : Nat
  seen : Mem

/-- The state threaded through the fiber operations. -/
structure Exec where
  mem : Mem
  switches : List SwitchRecord

/-- Store `f` as the object at address `p`. -/
def Mem.setFiber (m : Mem) (p : Nat) (f : CFiber) : Mem :=
  { m with fibers := fun q => if q = p then f else m.fibers q }

/-- Replace the active-fiber stack of thread `t`. -/
def Mem.setStack (m : Mem) (t : Nat) (s : List Nat) : Mem :=
  { m with fiberStack := fun u => if u = t then s else m.fiberStack u }

/-- The constructor `CFiber::CFiber( manager, group, runtime )`, run on the raw
storage `raw`; `makefiber` is the pointer returned by the native
`ExecutiveFiber::makefiber()`. Members the constructor does not assign keep
whatever the storage held. -/
def CFiber.ctor (raw : CFiber) (manager group runtime makefiber : Nat) : CFiber :=
  let c := { raw with runtime := runtime }
  let c := { c with callee := makefiber }
  let c := { c with manager := manager }
  let c := { c with group := group }
  { c with status := eFiberStatus.FIBER_SUSPENDED }

/-- The query `CFiber::is_running`. -/
def CFiber.is_running (c : CFiber) : Bool :=
  c.status == eFiberStatus.FIBER_RUNNING

/-- The query `CFiber::is_terminated`. -/
def CFiber.is_terminated (c : CFiber) : Bool :=
  c.status == eFiberStatus.FIBER_TERMINATED

/-- Modelled from the spec: `CFiber::push_on_stack` is only declared in the
header, its body is missing. Per the spec the Active-Fiber Stack is a per-thread
last-in-first-out sequence, "pushed when a fiber is resumed": the fiber is put
on top of the calling thread's stack. -/
def CFiber.push_on_stack (self thread : Nat) (m : Mem) : Mem :=
  m.setStack thread (self :: m.fiberStack thread)

/-- Modelled from the spec: `CFiber::pop_from_stack` is only declared in the
header, its body is missing. Per the spec the stack is "popped when that fiber
yields back to its resumer": the top entry of the calling thread's stack is
removed. -/
def CFiber.pop_from_stack (_self thread : Nat) (m : Mem) : Mem :=
  m.setStack thread (m.fiberStack thread).tail

/-- Modelled from the spec: `CFiber::is_current_on_stack` is only declared in the
header, its body is missing. Per the spec the check of `yield` is that "self is
the top entry of the calling thread's Active-Fiber Stack". -/
def CFiber.is_current_on_stack (self thread : Nat) (m : Mem) : Bool :=
  (m.fiberStack thread).head? == some self

/-- Modelled from the spec: the native `ExecutiveFiber::eswitch( from, to )` is
only declared in the header. Per the spec the switch operations "touch only
their own Context objects" and "none mutate Fiber/Group/Manager state": the call
is logged with the memory it leaves behind, the memory itself is untouched.
This is the state at the instant of the switch; what runs before control comes
back to the caller is not part of it (see `CFiber.resumeUntilYield`). -/
def ExecutiveFiber.eswitch (from_ to_ : Nat) (w : Exec) : Exec :=
  { w with switches := w.switches ++ [⟨SwitchKind.eswitch, from_, to_, w.mem⟩] }

/-- Modelled from the spec: the native `ExecutiveFiber::qswitch( from, to )` is
only declared in the header; logged like `eswitch`. -/
def ExecutiveFiber.qswitch (from_ to_ : Nat) (w : Exec) : Exec :=
  { w with switches := w.switches ++ [⟨SwitchKind.qswitch, from_, to_, w.mem⟩] }

/-- The inline member `CFiber::resume`, called on the object at address `this` by
thread `thread`; `GetPerformanceTimer` is the value the call
`ExecutiveManager::GetPerformanceTimer()` returns. -/
def CFiber.resume (self thread GetPerformanceTimer : Nat) (w : Exec) : Exec :=
  if (w.mem.fibers self).status = eFiberStatus.FIBER_SUSPENDED then
    let w1 : Exec := { w with mem := (w.mem.setFiber self
      { w.mem.fibers self with resumeTimer := GetPerformanceTimer }) }
    let w2 : Exec := { w1 with mem := (w1.mem.setFiber self
      { w1.mem.fibers self with status := eFiberStatus.FIBER_RUNNING }) }
    let w3 : Exec := { w2 with mem := CFiber.push_on_stack self thread w2.mem }
    ExecutiveFiber.eswitch (w3.mem.fibers self).callee (w3.mem.fibers self).runtime w3
  else
    w

/-- The inline member `CFiber::yield`, called on the object at address `this` by
thread `thread`. A failed `assert` gives `Except.error` with the state at the
abort. -/
def CFiber.yield (self thread : Nat) (w : Exec) : Except Exec Exec :=
  if (w.mem.fibers self).status ≠ eFiberStatus.FIBER_RUNNING then
    Except.error w
  else if CFiber.is_current_on_stack self thread w.mem = false then
    Except.error w
  else
    let w1 : Exec := { w with mem := (w.mem.setFiber self
      { w.mem.fibers self with status := eFiberStatus.FIBER_SUSPENDED }) }
    let w2 : Exec := { w1 with mem := CFiber.pop_from_stack self thread w1.mem }
    Except.ok (ExecutiveFiber.qswitch (w2.mem.fibers self).runtime (w2.mem.fibers self).callee w2)

/-- Placement of a newly constructed `CFiber` at address `this`. -/
def Exec.construct (w : Exec) (self manager group runtime makefiber : Nat) : Exec :=
  { w with mem := (w.mem.setFiber self
      (CFiber.ctor (w.mem.fibers self) manager group runtime makefiber)) }

/-- A call of one of the two fiber operations. -/
inductive Call where
  | resume (self thread GetPerformanceTimer : Nat)
  | yield (self thread : Nat)
  deriving DecidableEq, Repr

/-- Perform one call. -/
def Call.exec : Call → Exec → Except Exec Exec
  | Call.resume self thread timer, w => Except.ok (CFiber.resume self thread timer w)
  | Call.yield self thread, w => CFiber.yield self thread w

/-- Perform the calls in order; the first failed assertion ends the run. -/
def run : List Call → Exec → Except Exec Exec
  | [], w => Except.ok w
  | c :: cs, w =>
    match c.exec w with
    | Except.ok w1 => run cs w1
    | Except.error e => Except.error e

/-- The status of the fiber at `this`. -/
def Exec.status (w : Exec) (self : Nat) : eFiberStatus :=
  (w.mem.fibers self).status

/-- The active-fiber stack of thread `thread`. -/
def Exec.stack (w : Exec) (thread : Nat) : List Nat :=
  w.mem.fiberStack thread

/-- A small concrete state: every address `p` holds a fiber with the given status,
`callee = 100 + p` and `runtime = 200 + p`, and every thread has the stack `stk`. -/
def sample (s : eFiberStatus) (stk : List Nat) : Exec :=
  { mem :=
      { fibers := fun p =>
          { callee := 100 + p, termcb := 0, status := s, runtime := 200 + p,
            userdata := 0, callback := 0, node := ⟨0, 0⟩, groupNode := ⟨0, 0⟩,
            group := 0, manager := 0, resumeTimer := 0 }
        fiberStack := fun _ => stk }
    switches := [] }

/-- Perform the calls in order as a test harness that catches a failed
assertion does: a rejected call hands back its state and the run goes on. -/
def runCatching : List Call → Exec → Exec
  | [], w => w
  | c :: cs, w =>
    match c.exec w with
    | Except.ok w1 => runCatching cs w1
    | Except.error e => runCatching cs e

/-- The transitions performed by a run, as (state before, call, state after),
up to the first failed assertion. -/
def transitions : List Call → Exec → List (Exec × Call × Exec)
  | [], _ => []
  | c :: cs, w =>
    match c.exec w with
    | Except.ok w1 => (w, c, w1) :: transitions cs w1
    | Except.error _ => []

/-- The status of the fiber at `self` at the start of a run and after each
performed call, up to the first failed assertion. -/
def statusHistory (self : Nat) : List Call → Exec → List eFiberStatus
  | [], w => [w.status self]
  | c :: cs, w =>
    match c.exec w with
    | Except.ok w1 => w.status self :: statusHistory self cs w1
    | Except.error _ => [w.status self]

/-- The status changes of a history: every entry equal to its predecessor is
dropped. -/
def changes : List eFiberStatus → List eFiberStatus
  | [] => []
  | [a] => [a]
  | a :: b :: l => if a = b then changes (b :: l) else a :: changes (b :: l)

/-- The other one of RUNNING and SUSPENDED. -/
def eFiberStatus.other : eFiberStatus → eFiberStatus
  | eFiberStatus.FIBER_RUNNING => eFiberStatus.FIBER_SUSPENDED
  | eFiberStatus.FIBER_SUSPENDED => eFiberStatus.FIBER_RUNNING
  | eFiberStatus.FIBER_TERMINATED => eFiberStatus.FIBER_TERMINATED

/-- The strictly alternating sequence `s, other s, s, ...` of length `n`. -/
def alternation : eFiberStatus → Nat → List eFiberStatus
  | _, 0 => []
  | s, n + 1 => s :: alternation s.other n

/-- The bookkeeping invariant of the active-fiber stacks: no stack holds a fiber
twice, no fiber is on the stacks of two threads, and the fibers on a stack are
exactly the RUNNING ones. -/
def StackInvariant (w : Exec) : Prop :=
  (∀ t, (w.stack t).Nodup) ∧
  (∀ t u p, p ∈ w.stack t → p ∈ w.stack u → t = u) ∧
  (∀ p, (∃ t, p ∈ w.stack t) ↔ w.status p = eFiberStatus.FIBER_RUNNING)

/-- Modelled from the spec: the transfer of control by the native `eswitch` is
not in the sources. Per the spec a `resume()` that finds the fiber SUSPENDED
"returns to the caller only after this fiber later yields or terminates". This
is a call of `resume()` as its caller sees it when the fiber body answers with
`yield()` on the same thread: the bookkeeping of `resume` up to its switch,
then that of `yield`. A `resume()` that finds the fiber not SUSPENDED performs
no switch and returns at once. -/
def CFiber.resumeUntilYield (self thread GetPerformanceTimer : Nat) (w : Exec) :
    Except Exec Exec :=
  if (w.mem.fibers self).status = eFiberStatus.FIBER_SUSPENDED then
    CFiber.yield self thread (CFiber.resume self thread GetPerformanceTimer w)
  else
    Except.ok (CFiber.resume self thread GetPerformanceTimer w)

/-- Two calls of `resume()` in a row, as their caller sees them: the second is
made in the state in which the first has returned. -/
def CFiber.resumeTwice (self thread GetPerformanceTimer GetPerformanceTimer2 : Nat)
    (w : Exec) : Except Exec Exec :=
  match CFiber.resumeUntilYield self thread GetPerformanceTimer w with
  | Except.ok v => CFiber.resumeUntilYield self thread GetPerformanceTimer2 v
  | Except.error e => Except.error e

/-- The target architecture as the preprocessor sees it in `struct Fiber`:
`_M_IX86` is defined, else `_M_AMD64` is defined, else neither is. -/
inductive Architecture where
  | _M_IX86
  | _M_AMD64
  | unsupported
  deriving DecidableEq, Repr

/-- The types of the data members of `struct Fiber`: `regType_t` (a `size_t`),
`xmmReg_t` (a `char[16]`), `void*` and `size_t`. -/
inductive MemberType where
  | regType_t
  | xmmReg_t
  | voidPtr
  | size_t
  deriving DecidableEq, Repr

/-- One data member of a struct: its name and its type. -/
structure Member where
  name : String
  type : MemberType
  deriving DecidableEq, Repr

/-- The register members of `struct Fiber`, in declaration order: the `#if`
block at its head. For an architecture that is neither x86 nor AMD64 the block
is an `#error` and there is no struct (`none`). -/
def Fiber.registerFrame : Architecture → Option (List Member)
  | Architecture._M_IX86 =>
    some [⟨"ebx", MemberType.regType_t⟩, ⟨"edi", MemberType.regType_t⟩,
      ⟨"esi", MemberType.regType_t⟩, ⟨"esp", MemberType.regType_t⟩,
      ⟨"eip", MemberType.regType_t⟩, ⟨"ebp", MemberType.regType_t⟩]
  | Architecture._M_AMD64 =>
    some [⟨"eip", MemberType.regType_t⟩, ⟨"esp", MemberType.regType_t⟩,
      ⟨"r12", MemberType.regType_t⟩, ⟨"r13", MemberType.regType_t⟩,
      ⟨"r14", MemberType.regType_t⟩, ⟨"r15", MemberType.regType_t⟩,
      ⟨"rdi", MemberType.regType_t⟩, ⟨"rsi", MemberType.regType_t⟩,
      ⟨"rbx", MemberType.regType_t⟩, ⟨"rbp", MemberType.regType_t⟩,
      ⟨"xmm6", MemberType.xmmReg_t⟩, ⟨"xmm7", MemberType.xmmReg_t⟩,
      ⟨"xmm8", MemberType.xmmReg_t⟩, ⟨"xmm9", MemberType.xmmReg_t⟩,
      ⟨"xmm10", MemberType.xmmReg_t⟩, ⟨"xmm11", MemberType.xmmReg_t⟩,
      ⟨"xmm12", MemberType.xmmReg_t⟩, ⟨"xmm13", MemberType.xmmReg_t⟩,
      ⟨"xmm14", MemberType.xmmReg_t⟩, ⟨"xmm15", MemberType.xmmReg_t⟩]
  | Architecture.unsupported => none

/-- The data members of `struct Fiber` declared after the `#if` block, in
declaration order. -/
def Fiber.stackMembers : List Member :=
  [⟨"stack_base", MemberType.voidPtr⟩, ⟨"stack_limit", MemberType.voidPtr⟩,
    ⟨"except_info", MemberType.voidPtr⟩, ⟨"stackSize", MemberType.size_t⟩]

/-- All data members of `struct Fiber`, in declaration order. -/
def Fiber.members (arch : Architecture) : Option (List Member) :=
  (Fiber.registerFrame arch).map (fun frame => frame ++ Fiber.stackMembers)

/-- The names of a list of members. -/
def memberNames (members : List Member) : List String :=
  members.map (fun m => m.name)

/-- The registers that the specification wants in the frame: the instruction
pointer and the stack pointer (the members `eip` and `esp` on both
architectures), then the callee-saved registers of the calling convention as
the specification lists them: `ebx, edi, esi, ebp` for x86 (cdecl), and
`rbx, rbp, rdi, rsi, r12` to `r15`, `xmm6` to `xmm15` for AMD64 (Microsoft x64). -/
def specifiedRegisters : Architecture → List String
  | Architecture._M_IX86 => ["eip", "esp", "ebx", "edi", "esi", "ebp"]
  | Architecture._M_AMD64 =>
    ["eip", "esp", "rbx", "rbp", "rdi", "rsi", "r12", "r13", "r14", "r15",
      "xmm6", "xmm7", "xmm8", "xmm9", "xmm10", "xmm11", "xmm12", "xmm13", "xmm14", "xmm15"]
  | Architecture.unsupported => []

end NativeExecutive

/-!
Palettization entry points of rwlib (`rwlib/src/txdread.palette.cpp`).

* A call ends in one of three ways: it returns, it throws, or a failed `assert`
  aborts the program (assertions are taken as enabled, as for the fibers).
* Enumerations and classes that the file uses but does not declare are kept
  with the enumerators and members the file names.
* The collaborators whose code is elsewhere (the native texture provider,
  `ConvertPixelData`, the colour quantisers) are records of functions.
* `uint32` values are `Nat`; the code modelled here only compares and copies
  them. Pointers (`void*`) are addresses, kept as `Nat`, `0` being `NULL`.
-/

namespace rw

/-- An exception in flight: an `rw::RwException` with its message, or any other
C++ exception. -/
inductive Exception where
  | RwException (message : String)
  | foreign (tag : Nat)
  deriving DecidableEq, Repr

/-- How a call ends: it returns a value, it throws, or a failed `assert` aborts. -/
inductive Outcome (α : Type) where
  | returned (value : α)
  | threw (e : Exception)
  | aborted
  deriving DecidableEq, Repr

/-- The enum `ePaletteType`. Its declaration is in another file; the four
enumerators are the ones this file names, `other` is any further value. -/
inductive ePaletteType where
  | PALETTE_NONE
  | PALETTE_4BIT
  | PALETTE_8BIT
  | PALETTE_4BIT_LSB
  | other (value : Nat)
  deriving DecidableEq, Repr

/-- The enum `eRasterFormat`, with the enumerators this file names; `other` is
any further raster format. -/
inductive eRasterFormat where
  | RASTER_DEFAULT
  | RASTER_8888
  | RASTER_888
  | other (value : Nat)
  deriving DecidableEq, Repr

/-- The enum `eColorOrdering`; this file names none of its enumerators. -/
structure eColorOrdering where
  value : Nat
  deriving DecidableEq, Repr

/-- The enum `eCompressionType`: `RWCOMPRESS_NONE` or any compressed format. -/
inductive eCompressionType where
  | RWCOMPRESS_NONE
  | other (value : Nat)
  deriving DecidableEq, Repr

/-- The enum `ePaletteRuntimeType`. -/
inductive ePaletteRuntimeType where
  | PALRUNTIME_NATIVE
  | PALRUNTIME_PNGQUANT
  | other (value : Nat)
  deriving DecidableEq, Repr

/-- One mipmap layer of a `pixelDataTraversal` (`mipmapResource`). -/
structure mipmapResource where
  texels : Nat
  width : Nat
  height : Nat
  mipWidth : Nat
  mipHeight : Nat
  dataSize : Nat
  deriving DecidableEq, Repr

/-- The members of `pixelDataTraversal` that this file reads or writes. -/
structure pixelDataTraversal where
  mipmaps : List mipmapResource
  isNewlyAllocated : Bool
  rasterFormat : eRasterFormat
  depth : Nat
  rowAlignment : Nat
  colorOrder : eColorOrdering
  paletteType : ePaletteType
  paletteData : Nat
  paletteSize : Nat
  compressionType : eCompressionType
  hasAlpha : Bool
  deriving DecidableEq, Repr

/-- The struct `pixelFormat`. -/
structure pixelFormat where
  rasterFormat : eRasterFormat
  depth : Nat
  rowAlignment : Nat
  colorOrder : eColorOrdering
  paletteType : ePaletteType
  compressionType : eCompressionType
  deriving DecidableEq, Repr

/-- What `PalettizePixelData` asks of the engine and of the colour quantisers
(class `palettizer`, libimagequant), none of which is in this file: the selected
runtime, whether `RWLIB_INCLUDE_LIBIMAGEQUANT` is defined, and for either
runtime the new `(texels, dataSize)` of a mipmap layer and the new
`(paletteData, paletteSize)`. For libimagequant, `quantizeOk = false` is a
failed `assert` on one of its handles, and a palette of `none` is the failed
allocation of the palette colour array. Apart from these two failures, which
the source tests for, the quantisers are taken to return. -/
structure PaletteEngine where
  GetPaletteRuntime : ePaletteRuntimeType
  RWLIB_INCLUDE_LIBIMAGEQUANT : Bool
  nativeRemap : pixelDataTraversal → pixelFormat → Nat → mipmapResource → Nat × Nat
  nativePalette : pixelDataTraversal → pixelFormat → Nat → Nat × Nat
  quantizeOk : pixelDataTraversal → pixelFormat → Nat → Bool
  quantRemap : pixelDataTraversal → pixelFormat → Nat → mipmapResource → Nat × Nat
  quantPalette : pixelDataTraversal → pixelFormat → Nat → Option (Nat × Nat)

/-- The outcome of `PalettizePixelData` and the pixel data (passed by reference)
as the call leaves it. -/
structure PalettizeRun where
  completion : Outcome Unit
  pixelData : pixelDataTraversal
  deriving DecidableEq, Repr

/-- The block "Get palette maximums" of `PalettizePixelData`:
`(maxPaletteEntries, hasValidPaletteTarget)`. -/
def paletteTarget (dstDepth : Nat) (convPaletteFormat : ePaletteType) : Nat × Bool :=
  if dstDepth = 8 then
    if convPaletteFormat = ePaletteType.PALETTE_8BIT then
      (256, true)
    else if convPaletteFormat = ePaletteType.PALETTE_4BIT ∨
        convPaletteFormat = ePaletteType.PALETTE_4BIT_LSB then
      (16, true)
    else
      (0, false)
  else if dstDepth = 4 then
    if convPaletteFormat = ePaletteType.PALETTE_4BIT ∨
        convPaletteFormat = ePaletteType.PALETTE_4BIT_LSB then
      (16, true)
    else
      (0, false)
  else
    (0, false)

/-- Give every mipmap layer its new texels and data size. -/
def remapMipmaps (remap : mipmapResource → Nat × Nat) (mipmaps : List mipmapResource) :
    List mipmapResource :=
  mipmaps.map (fun mipLayer =>
    { mipLayer with texels := (remap mipLayer).1, dataSize := (remap mipLayer).2 })

/-- The block "Do the palettization" of `PalettizePixelData`. A returned run
stands for `palettizeSuccess == true`. -/
def palettize (engineInterface : PaletteEngine) (pixelData : pixelDataTraversal)
    (dstPixelFormat : pixelFormat) (maxPaletteEntries : Nat) : PalettizeRun :=
  let useRuntime := engineInterface.GetPaletteRuntime
  if useRuntime = ePaletteRuntimeType.PALRUNTIME_NATIVE then
    let mips := remapMipmaps
      (engineInterface.nativeRemap pixelData dstPixelFormat maxPaletteEntries) pixelData.mipmaps
    let pal := engineInterface.nativePalette pixelData dstPixelFormat maxPaletteEntries
    ⟨Outcome.returned (),
      { pixelData with mipmaps := mips, paletteData := pal.1, paletteSize := pal.2 }⟩
  else if engineInterface.RWLIB_INCLUDE_LIBIMAGEQUANT = true ∧
      useRuntime = ePaletteRuntimeType.PALRUNTIME_PNGQUANT then
    if engineInterface.quantizeOk pixelData dstPixelFormat maxPaletteEntries = false then
      ⟨Outcome.aborted, pixelData⟩
    else
      let mips := remapMipmaps
        (engineInterface.quantRemap pixelData dstPixelFormat maxPaletteEntries) pixelData.mipmaps
      match engineInterface.quantPalette pixelData dstPixelFormat maxPaletteEntries with
      | none =>
        ⟨Outcome.threw (Exception.RwException
          "failed to allocate palette color array in libimagequant palettitation algorithm"),
          { pixelData with mipmaps := mips }⟩
      | some pal =>
        ⟨Outcome.returned (),
          { pixelData with mipmaps := mips, paletteData := pal.1, paletteSize := pal.2 }⟩
  else
    ⟨Outcome.aborted, pixelData⟩

/-- The function `PalettizePixelData( engineInterface, pixelData, dstPixelFormat )`. -/
def PalettizePixelData (engineInterface : PaletteEngine) (pixelData : pixelDataTraversal)
    (dstPixelFormat : pixelFormat) : PalettizeRun :=
  if pixelData.compressionType ≠ eCompressionType.RWCOMPRESS_NONE then
    ⟨Outcome.aborted, pixelData⟩
  else if dstPixelFormat.compressionType ≠ eCompressionType.RWCOMPRESS_NONE then
    ⟨Outcome.aborted, pixelData⟩
  else
    let convPaletteFormat := dstPixelFormat.paletteType
    if convPaletteFormat ≠ ePaletteType.PALETTE_8BIT ∧
        convPaletteFormat ≠ ePaletteType.PALETTE_4BIT ∧
        convPaletteFormat ≠ ePaletteType.PALETTE_4BIT_LSB then
      ⟨Outcome.threw (Exception.RwException
        "unknown palette type target in palettization routine"), pixelData⟩
    else
      let srcPaletteType := pixelData.paletteType
      if srcPaletteType = convPaletteFormat then
        ⟨Outcome.returned (), pixelData⟩
      else
        let srcRasterFormat := pixelData.rasterFormat
        let srcColorOrder := pixelData.colorOrder
        let srcDepth := pixelData.depth
        let srcRowAlignment := pixelData.rowAlignment
        let dstRasterFormat := dstPixelFormat.rasterFormat
        let dstDepth := dstPixelFormat.depth
        let dstColorOrder := dstPixelFormat.colorOrder
        let dstRowAlignment := dstPixelFormat.rowAlignment
        let maxPaletteEntries := (paletteTarget dstDepth convPaletteFormat).1
        let hasValidPaletteTarget := (paletteTarget dstDepth convPaletteFormat).2
        if hasValidPaletteTarget = false then
          ⟨Outcome.threw (Exception.RwException
            "invalid palette depth in palettization routine"), pixelData⟩
        else
          match palettize engineInterface pixelData dstPixelFormat maxPaletteEntries with
          | ⟨Outcome.returned (), pd⟩ =>
            let pd := if srcRasterFormat ≠ dstRasterFormat then
              { pd with rasterFormat := dstRasterFormat } else pd
            let pd := if srcColorOrder ≠ dstColorOrder then
              { pd with colorOrder := dstColorOrder } else pd
            let pd := if srcDepth ≠ dstDepth then { pd with depth := dstDepth } else pd
            let pd := if srcRowAlignment ≠ dstRowAlignment then
              { pd with rowAlignment := dstRowAlignment } else pd
            ⟨Outcome.returned (), { pd with paletteType := convPaletteFormat }⟩
          | r => r

/-- The native texture behind a raster (`PlatformTexture`): its class is not in
this file, so its state is kept abstract. -/
abbrev PlatformTexture := Nat

/-- The struct `pixelCapabilities`, with the member this file reads. -/
structure pixelCapabilities where
  supportsPalette : Bool
  deriving DecidableEq, Repr

/-- The struct `storageCapabilities`, with the member this file reads. -/
structure storageCapabilities where
  pixelCaps : pixelCapabilities
  deriving DecidableEq, Repr

/-- The struct `texNativeTypeProvider::acquireFeedback_t`. -/
structure acquireFeedback_t where
  hasDirectlyAcquired : Bool
  deriving DecidableEq, Repr

/-- The virtual interface `texNativeTypeProvider`, with the methods that
`Raster::convertToPalette` calls. `UnsetPixelDataFromTexture` and
`SetPixelDataToTexture` give the new state of the native texture. -/
structure texNativeTypeProvider where
  GetTexturePaletteType : PlatformTexture → ePaletteType
  GetTextureRasterFormat : PlatformTexture → eRasterFormat
  GetPixelCapabilities : pixelCapabilities
  GetStorageCapabilities : storageCapabilities
  GetPixelDataFromTexture : PlatformTexture → pixelDataTraversal
  UnsetPixelDataFromTexture : PlatformTexture → Bool → PlatformTexture
  SetPixelDataToTexture : PlatformTexture → pixelDataTraversal →
    PlatformTexture × acquireFeedback_t

/-- The free functions that `Raster::convertToPalette` calls and that are
defined elsewhere. -/
structure Interface where
  GetNativeTextureTypeProvider : PlatformTexture → Option texNativeTypeProvider
  SetStandalone : pixelDataTraversal → pixelDataTraversal
  ConvertPixelData : pixelDataTraversal → pixelFormat → Outcome (Bool × pixelDataTraversal)

/-- The members of `Raster` that `convertToPalette` uses; `platformData` is
`none` for a `NULL` pointer. -/
structure Raster where
  engineInterface : Interface
  platformData : Option PlatformTexture

/-- The calls by which `Raster::convertToPalette` fetches, converts, stores or
releases pixel data, in the order they are made. -/
inductive NativeCall where
  | GetPixelDataFromTexture
  | UnsetPixelDataFromTexture (deallocate : Bool)
  | SetStandalone
  | ConvertPixelData (dstPixelFormat : pixelFormat)
  | SetPixelDataToTexture
  | FreePixels
  | DetachPixels
  deriving DecidableEq, Repr

/-- The outcome of `Raster::convertToPalette`, the native texture as the call
leaves it, and the calls made on pixel data. -/
structure ConvertRun where
  completion : Outcome Unit
  platformData : Option PlatformTexture
  calls : List NativeCall
  deriving DecidableEq, Repr

/-- The block "Get palette default capabilities" of `Raster::convertToPalette`:
the value of `dstDepth`, or the exception. -/
def Raster.dstDepth (paletteType : ePaletteType) : Outcome Nat :=
  if paletteType = ePaletteType.PALETTE_4BIT then
    Outcome.returned 4
  else if paletteType = ePaletteType.PALETTE_8BIT then
    Outcome.returned 8
  else
    Outcome.threw (Exception.RwException
      "unknown palette type in raster palettization routine")

/-- The part of `Raster::convertToPalette` from `GetPixelDataFromTexture` on. -/
def Raster.palettizeNative (engineInterface : Interface) (texProvider : texNativeTypeProvider)
    (platformTex : PlatformTexture) (paletteType : ePaletteType)
    (newRasterFormat : eRasterFormat) (dstDepth : Nat) : ConvertRun :=
  let fetched := texProvider.GetPixelDataFromTexture platformTex
  let deallocate := fetched.isNewlyAllocated == true
  let platformTex1 := texProvider.UnsetPixelDataFromTexture platformTex deallocate
  let pixelData := engineInterface.SetStandalone fetched
  let targetRasterFormat :=
    if newRasterFormat = eRasterFormat.RASTER_DEFAULT then
      if pixelData.hasAlpha then eRasterFormat.RASTER_8888 else eRasterFormat.RASTER_888
    else
      newRasterFormat
  let targetPixelFormat : pixelFormat :=
    { rasterFormat := targetRasterFormat
      depth := dstDepth
      rowAlignment := 4
      colorOrder := pixelData.colorOrder
      paletteType := paletteType
      compressionType := eCompressionType.RWCOMPRESS_NONE }
  let calls := [NativeCall.GetPixelDataFromTexture,
    NativeCall.UnsetPixelDataFromTexture deallocate,
    NativeCall.SetStandalone, NativeCall.ConvertPixelData targetPixelFormat]
  match engineInterface.ConvertPixelData pixelData targetPixelFormat with
  | Outcome.aborted => ⟨Outcome.aborted, some platformTex1, calls⟩
  | Outcome.threw e => ⟨Outcome.threw e, some platformTex1, calls ++ [NativeCall.FreePixels]⟩
  | Outcome.returned (false, _) =>
    ⟨Outcome.threw (Exception.RwException "pixel conversion failed in palettization routine"),
      some platformTex1, calls ++ [NativeCall.FreePixels]⟩
  | Outcome.returned (true, converted) =>
    let stored := texProvider.SetPixelDataToTexture platformTex1 converted
    if stored.2.hasDirectlyAcquired = false then
      ⟨Outcome.returned (), some stored.1,
        calls ++ [NativeCall.SetPixelDataToTexture, NativeCall.FreePixels]⟩
    else
      ⟨Outcome.returned (), some stored.1,
        calls ++ [NativeCall.SetPixelDataToTexture, NativeCall.DetachPixels]⟩

/-- The method `Raster::convertToPalette( paletteType, newRasterFormat )`. The
two nested tests of the early termination are written as one conjunction. -/
def Raster.convertToPalette (self : Raster) (paletteType : ePaletteType)
    (newRasterFormat : eRasterFormat) : ConvertRun :=
  if paletteType = ePaletteType.PALETTE_NONE then
    ⟨Outcome.returned (), self.platformData, []⟩
  else
    match self.platformData with
    | none =>
      ⟨Outcome.threw (Exception.RwException "no native data"), self.platformData, []⟩
    | some platformTex =>
      let engineInterface := self.engineInterface
      match engineInterface.GetNativeTextureTypeProvider platformTex with
      | none =>
        ⟨Outcome.threw (Exception.RwException "invalid native data"), self.platformData, []⟩
      | some texProvider =>
        let currentPaletteType := texProvider.GetTexturePaletteType platformTex
        if currentPaletteType = paletteType ∧
            (newRasterFormat = eRasterFormat.RASTER_DEFAULT ∨
              texProvider.GetTextureRasterFormat platformTex = newRasterFormat) then
          ⟨Outcome.returned (), self.platformData, []⟩
        else
          match Raster.dstDepth paletteType with
          | Outcome.aborted => ⟨Outcome.aborted, self.platformData, []⟩
          | Outcome.threw e => ⟨Outcome.threw e, self.platformData, []⟩
          | Outcome.returned dstDepth =>
            if texProvider.GetPixelCapabilities.supportsPalette = false then
              ⟨Outcome.threw (Exception.RwException
                "target raster does not support palette input"), self.platformData, []⟩
            else if texProvider.GetStorageCapabilities.pixelCaps.supportsPalette = false then
              ⟨Outcome.threw (Exception.RwException
                "target raster cannot store palette data"), self.platformData, []⟩
            else
              Raster.palettizeNative engineInterface texProvider platformTex paletteType
                newRasterFormat dstDepth

/-- A small concrete pixel data: one 4x4 mipmap layer, 32 bit deep. -/
def samplePixelData (paletteType : ePaletteType) (compressionType : eCompressionType) :
    pixelDataTraversal :=
  { mipmaps := [{ texels := 1000, width := 4, height := 4, mipWidth := 4, mipHeight := 4,
                  dataSize := 64 }]
    isNewlyAllocated := false
    rasterFormat := eRasterFormat.RASTER_8888
    depth := 32
    rowAlignment := 4
    colorOrder := ⟨0⟩
    paletteType := paletteType
    paletteData := 0
    paletteSize := 0
    compressionType := compressionType
    hasAlpha := true }

/-- A small concrete target format. -/
def sampleFormat (paletteType : ePaletteType) (depth : Nat)
    (compressionType : eCompressionType) : pixelFormat :=
  { rasterFormat := eRasterFormat.RASTER_888
    depth := depth
    rowAlignment := 1
    colorOrder := ⟨1⟩
    paletteType := paletteType
    compressionType := compressionType }

/-- A small concrete engine: the native runtime, new texels at address 2000 and
a palette of 16 colours at address 3000. -/
def sampleEngine : PaletteEngine :=
  { GetPaletteRuntime := ePaletteRuntimeType.PALRUNTIME_NATIVE
    RWLIB_INCLUDE_LIBIMAGEQUANT := true
    nativeRemap := fun _ _ _ mipLayer => (2000, mipLayer.mipWidth * mipLayer.mipHeight)
    nativePalette := fun _ _ _ => (3000, 16)
    quantizeOk := fun _ _ _ => true
    quantRemap := fun _ _ _ mipLayer => (2000, mipLayer.mipWidth * mipLayer.mipHeight)
    quantPalette := fun _ _ _ => some (3000, 16) }

/-- A small concrete provider for a native texture of the given palette type
and raster format, with the given palette capabilities. -/
def sampleProvider (paletteType : ePaletteType) (rasterFormat : eRasterFormat)
    (inputPalette storePalette : Bool) : texNativeTypeProvider :=
  { GetTexturePaletteType := fun _ => paletteType
    GetTextureRasterFormat := fun _ => rasterFormat
    GetPixelCapabilities := ⟨inputPalette⟩
    GetStorageCapabilities := ⟨⟨storePalette⟩⟩
    GetPixelDataFromTexture := fun _ =>
      samplePixelData paletteType eCompressionType.RWCOMPRESS_NONE
    UnsetPixelDataFromTexture := fun platformTex _ => platformTex + 1
    SetPixelDataToTexture := fun platformTex _ => (platformTex + 1, ⟨true⟩) }

/-- A small concrete raster: native texture 10, if any, served by the given
provider; `ConvertPixelData` succeeds and hands the pixel data back retyped. -/
def sampleRaster (hasNative : Bool) (texProvider : Option texNativeTypeProvider) : Raster :=
  { engineInterface :=
      { GetNativeTextureTypeProvider := fun _ => texProvider
        SetStandalone := fun pixelData => { pixelData with isNewlyAllocated := true }
        ConvertPixelData := fun pixelData dstPixelFormat =>
          Outcome.returned (true, { pixelData with
            paletteType := dstPixelFormat.paletteType, depth := dstPixelFormat.depth }) }
    platformData := if hasNative then some 10 else none }

end rw

/-!
The mass export tool (`src/tools/txdexport.cpp`).

* `filePath`, `std::string` and `std::wstring` are `String`; `+=` is `++`.
* Objects (`CFile*`, `rw::Stream*`, `rw::RwObject*`, `rw::Raster*`) are addresses,
  kept as `Nat`; a `NULL` result is `none`.
* The RenderWare engine, the file translator and the module are records of
  functions; each of their calls returns, throws or aborts (`rw.Outcome`).
  Releasing calls (`DeleteStream`, `DeleteRwObject`, `delete`) return.
* Every call with an effect outside the function is appended to a list of events.
-/

namespace TxdExport

/-- The class `filePath`. -/
abbrev filePath := String

/-- The result of `std::transform( ..., ::tolower )` on a `std::string`. -/
def lowerCase (s : String) : String :=
  String.mk (s.data.map Char.toLower)

/-- The test `stricmp( a, b ) == 0`: equality without regard to case. -/
def stricmpIsZero (a b : String) : Bool :=
  lowerCase a == lowerCase b

/-- Modelled from the spec: the method `filePath::equals( other, caseSensitive )`
belongs to the file system library; its body is not among the sources and the
spec does not describe it. It is taken as equality of the two strings, without
regard to ASCII case when `caseSensitive` is false. -/
def filePath.equals (self : filePath) (other : String) (caseSensitive : Bool) : Bool :=
  if caseSensitive then self == other else lowerCase self == lowerCase other

/-- A texture (`rw::TextureBase`): its name and its raster, `none` when
`GetRaster()` is `NULL`. -/
structure TextureBase where
  name : String
  raster : Option Nat
  deriving DecidableEq, Repr

/-- A texture dictionary: the object and its textures in iteration order. -/
structure TexDictionary where
  object : Nat
  textures : List TextureBase
  deriving DecidableEq, Repr

/-- The enum `MassExportModule::eOutputType`, declared in `txdexport.h`, with
the three enumerators this file names. -/
inductive eOutputType where
  | OUTPUT_PLAIN
  | OUTPUT_TXDNAME
  | OUTPUT_FOLDERS
  deriving DecidableEq, Repr

/-- The struct `MassExportModule::run_config`, with the members this file reads. -/
structure run_config where
  outputType : eOutputType
  recImgFormat : String
  deriving DecidableEq, Repr

/-- The engine (`rw::Interface`) with the functions this file calls on it,
`RwStreamCreateTranslated` and `rw::CheckThreadHazards` included. -/
structure Engine where
  CheckThreadHazards : rw.Outcome Unit
  RwStreamCreateTranslated : Nat → rw.Outcome (Option Nat)
  Deserialize : Nat → rw.Outcome (Option Nat)
  ToTexDictionary : Nat → rw.Outcome (Option TexDictionary)
  Serialize : TextureBase → Nat → rw.Outcome Unit
  writeImage : Nat → Nat → String → rw.Outcome Unit

/-- The class `CFileTranslator` with the two methods this file calls. -/
structure CFileTranslator where
  Open : filePath → String → Option Nat
  GetRelativePathFromRoot : filePath → Bool → rw.Outcome filePath

/-- The class `MassExportModule` as the sentry sees it. -/
structure MassExportModule where
  GetEngine : Engine
  OnProcessingFile : String → rw.Outcome Unit

/-- The calls with an effect outside the functions of this file. -/
inductive Event where
  | OnProcessingFile (statusFileName : String)
  | GetRelativePathFromRoot (path : filePath)
  | RwStreamCreateTranslated (file : Nat)
  | Deserialize (rwStream : Nat)
  | ToTexDictionary (rwObj : Nat)
  | DeleteRwObject (rwObj : Nat)
  | DeleteStream (rwStream : Nat)
  | Open (targetFileName : filePath) (mode : String)
  | Serialize (texName : String) (rwStream : Nat)
  | writeImage (texRaster : Nat) (rwStream : Nat) (imgFormat : String)
  | deleteFile (targetStream : Nat)
  deriving DecidableEq, Repr

/-- A finished call: the events it caused and how it ended. -/
structure Run (α : Type) where
  events : List Event
  completion : rw.Outcome α

/-- The static function `RwTexDictionaryStreamRead( rwEngine, stream )`. -/
def RwTexDictionaryStreamRead (rwEngine : Engine) (stream : Nat) :
    Run (Option TexDictionary) :=
  match rwEngine.RwStreamCreateTranslated stream with
  | rw.Outcome.aborted => ⟨[Event.RwStreamCreateTranslated stream], rw.Outcome.aborted⟩
  | rw.Outcome.threw e => ⟨[Event.RwStreamCreateTranslated stream], rw.Outcome.threw e⟩
  | rw.Outcome.returned none =>
    ⟨[Event.RwStreamCreateTranslated stream], rw.Outcome.returned none⟩
  | rw.Outcome.returned (some rwStream) =>
    match rwEngine.Deserialize rwStream with
    | rw.Outcome.aborted =>
      ⟨[Event.RwStreamCreateTranslated stream, Event.Deserialize rwStream], rw.Outcome.aborted⟩
    | rw.Outcome.threw e =>
      ⟨[Event.RwStreamCreateTranslated stream, Event.Deserialize rwStream,
        Event.DeleteStream rwStream], rw.Outcome.threw e⟩
    | rw.Outcome.returned none =>
      ⟨[Event.RwStreamCreateTranslated stream, Event.Deserialize rwStream,
        Event.DeleteStream rwStream], rw.Outcome.returned none⟩
    | rw.Outcome.returned (some rwObj) =>
      match rwEngine.ToTexDictionary rwObj with
      | rw.Outcome.aborted =>
        ⟨[Event.RwStreamCreateTranslated stream, Event.Deserialize rwStream,
          Event.ToTexDictionary rwObj], rw.Outcome.aborted⟩
      | rw.Outcome.threw e =>
        ⟨[Event.RwStreamCreateTranslated stream, Event.Deserialize rwStream,
          Event.ToTexDictionary rwObj, Event.DeleteRwObject rwObj,
          Event.DeleteStream rwStream], rw.Outcome.threw e⟩
      | rw.Outcome.returned none =>
        ⟨[Event.RwStreamCreateTranslated stream, Event.Deserialize rwStream,
          Event.ToTexDictionary rwObj, Event.DeleteRwObject rwObj,
          Event.DeleteStream rwStream], rw.Outcome.returned none⟩
      | rw.Outcome.returned (some resultDict) =>
        ⟨[Event.RwStreamCreateTranslated stream, Event.Deserialize rwStream,
          Event.ToTexDictionary rwObj, Event.DeleteStream rwStream],
          rw.Outcome.returned (some resultDict)⟩

/-- The local `targetFileName` of `ExportImagesFromDictionary` when it is handed
to `Open`. -/
def targetFileName (relPathFromRoot txdFileName : filePath) (outputType : eOutputType)
    (texName imgFormat : String) : filePath :=
  let targetFileName := relPathFromRoot
  let targetFileName :=
    if outputType = eOutputType.OUTPUT_PLAIN then
      targetFileName
    else if outputType = eOutputType.OUTPUT_TXDNAME then
      (targetFileName ++ txdFileName) ++ "_"
    else if outputType = eOutputType.OUTPUT_FOLDERS then
      (targetFileName ++ txdFileName) ++ "/"
    else
      targetFileName
  let targetFileName := targetFileName ++ texName
  let targetFileName := targetFileName ++ "."
  let lower_ext := lowerCase imgFormat
  targetFileName ++ lower_ext

/-- The body of the loop of `ExportImagesFromDictionary` for one texture. -/
def exportTexture (rwEngine : Engine) (outputRoot : CFileTranslator)
    (txdFileName relPathFromRoot : filePath) (outputType : eOutputType)
    (imgFormat : String) (texHandle : TextureBase) : Run Unit :=
  match texHandle.raster with
  | none => ⟨[], rw.Outcome.returned ()⟩
  | some texRaster =>
    let target := targetFileName relPathFromRoot txdFileName outputType texHandle.name imgFormat
    match outputRoot.Open target "wb" with
    | none => ⟨[Event.Open target "wb"], rw.Outcome.returned ()⟩
    | some targetStream =>
      match rwEngine.RwStreamCreateTranslated targetStream with
      | rw.Outcome.aborted =>
        ⟨[Event.Open target "wb", Event.RwStreamCreateTranslated targetStream],
          rw.Outcome.aborted⟩
      | rw.Outcome.threw e =>
        ⟨[Event.Open target "wb", Event.RwStreamCreateTranslated targetStream,
          Event.deleteFile targetStream], rw.Outcome.threw e⟩
      | rw.Outcome.returned none =>
        ⟨[Event.Open target "wb", Event.RwStreamCreateTranslated targetStream,
          Event.deleteFile targetStream], rw.Outcome.returned ()⟩
      | rw.Outcome.returned (some rwStream) =>
        let written : Event × rw.Outcome Unit :=
          if stricmpIsZero imgFormat "RWTEX" then
            (Event.Serialize texHandle.name rwStream, rwEngine.Serialize texHandle rwStream)
          else
            (Event.writeImage texRaster rwStream imgFormat,
              rwEngine.writeImage texRaster rwStream imgFormat)
        match written.2 with
        | rw.Outcome.aborted =>
          ⟨[Event.Open target "wb", Event.RwStreamCreateTranslated targetStream, written.1],
            rw.Outcome.aborted⟩
        | rw.Outcome.threw (rw.Exception.foreign tag) =>
          ⟨[Event.Open target "wb", Event.RwStreamCreateTranslated targetStream, written.1,
            Event.DeleteStream rwStream, Event.deleteFile targetStream],
            rw.Outcome.threw (rw.Exception.foreign tag)⟩
        | rw.Outcome.threw (rw.Exception.RwException _) =>
          ⟨[Event.Open target "wb", Event.RwStreamCreateTranslated targetStream, written.1,
            Event.DeleteStream rwStream, Event.deleteFile targetStream],
            rw.Outcome.returned ()⟩
        | rw.Outcome.returned _ =>
          ⟨[Event.Open target "wb", Event.RwStreamCreateTranslated targetStream, written.1,
            Event.DeleteStream rwStream, Event.deleteFile targetStream],
            rw.Outcome.returned ()⟩

/-- The loop of `ExportImagesFromDictionary` over the remaining textures: an
exception or abort that leaves the body ends the loop. -/
def exportLoop (rwEngine : Engine) (outputRoot : CFileTranslator)
    (txdFileName relPathFromRoot : filePath) (outputType : eOutputType)
    (imgFormat : String) : List TextureBase → Run Unit
  | [] => ⟨[], rw.Outcome.returned ()⟩
  | texHandle :: rest =>
    match exportTexture rwEngine outputRoot txdFileName relPathFromRoot outputType imgFormat
        texHandle with
    | ⟨events, rw.Outcome.returned _⟩ =>
      ⟨events ++ (exportLoop rwEngine outputRoot txdFileName relPathFromRoot outputType
          imgFormat rest).events,
        (exportLoop rwEngine outputRoot txdFileName relPathFromRoot outputType
          imgFormat rest).completion⟩
    | r => r

/-- The static function `ExportImagesFromDictionary`; `rwEngine` is
`texDict->GetEngine()`. -/
def ExportImagesFromDictionary (rwEngine : Engine) (texDict : TexDictionary)
    (outputRoot : CFileTranslator) (txdFileName relPathFromRoot : filePath)
    (outputType : eOutputType) (imgFormat : String) : Run Unit :=
  exportLoop rwEngine outputRoot txdFileName relPathFromRoot outputType imgFormat
    texDict.textures

/-- The local `statusFileName` of `OnSingletonFile` when it is handed to
`OnProcessingFile`. -/
def statusFileName (isInArchive : Bool) (relPathFromRoot : filePath) : String :=
  let statusFileName := ""
  let statusFileName := if isInArchive then statusFileName ++ "$" else statusFileName
  statusFileName ++ relPathFromRoot

/-- The struct `_discFileSentry_txdexport`. -/
structure _discFileSentry_txdexport where
  module : MassExportModule
  config : run_config

/-- What the `try` block of `OnSingletonFile` leaves behind: the events, the
local `anyWork`, and how the block ended. -/
structure TryBlock where
  events : List Event
  anyWork : Bool
  completion : rw.Outcome Unit

/-- The `try` block of `_discFileSentry_txdexport::OnSingletonFile`. -/
def _discFileSentry_txdexport.tryBlock (self : _discFileSentry_txdexport)
    (buildRoot : CFileTranslator) (relPathFromRoot fileName extention : filePath)
    (sourceStream : Nat) (isInArchive : Bool) : TryBlock :=
  let rwEngine := self.module.GetEngine
  if filePath.equals extention "TXD" false = true then
    let ev1 := [Event.OnProcessingFile (statusFileName isInArchive relPathFromRoot)]
    match self.module.OnProcessingFile (statusFileName isInArchive relPathFromRoot) with
    | rw.Outcome.aborted => ⟨ev1, false, rw.Outcome.aborted⟩
    | rw.Outcome.threw e => ⟨ev1, false, rw.Outcome.threw e⟩
    | rw.Outcome.returned _ =>
      let ev2 := ev1 ++ [Event.GetRelativePathFromRoot relPathFromRoot]
      match buildRoot.GetRelativePathFromRoot relPathFromRoot false with
      | rw.Outcome.aborted => ⟨ev2, false, rw.Outcome.aborted⟩
      | rw.Outcome.threw e => ⟨ev2, false, rw.Outcome.threw e⟩
      | rw.Outcome.returned relPathFromRootWithoutFile =>
        let read := RwTexDictionaryStreamRead rwEngine sourceStream
        let ev3 := ev2 ++ read.events
        match read.completion with
        | rw.Outcome.aborted => ⟨ev3, false, rw.Outcome.aborted⟩
        | rw.Outcome.threw e => ⟨ev3, false, rw.Outcome.threw e⟩
        | rw.Outcome.returned none => ⟨ev3, false, rw.Outcome.returned ()⟩
        | rw.Outcome.returned (some texDict) =>
          let exported := ExportImagesFromDictionary rwEngine texDict buildRoot fileName
            relPathFromRootWithoutFile self.config.outputType self.config.recImgFormat
          let ev4 := ev3 ++ exported.events
          match exported.completion with
          | rw.Outcome.aborted => ⟨ev4, false, rw.Outcome.aborted⟩
          | rw.Outcome.threw e =>
            ⟨ev4 ++ [Event.DeleteRwObject texDict.object], false, rw.Outcome.threw e⟩
          | rw.Outcome.returned _ =>
            ⟨ev4 ++ [Event.DeleteRwObject texDict.object], true, rw.Outcome.returned ()⟩
  else
    ⟨[], false, rw.Outcome.returned ()⟩

/-- The method `_discFileSentry_txdexport::OnSingletonFile`. -/
def _discFileSentry_txdexport.OnSingletonFile (self : _discFileSentry_txdexport)
    (_sourceRoot buildRoot : CFileTranslator) (relPathFromRoot fileName extention : filePath)
    (sourceStream : Nat) (isInArchive : Bool) : Run Bool :=
  let rwEngine := self.module.GetEngine
  match rwEngine.CheckThreadHazards with
  | rw.Outcome.aborted => ⟨[], rw.Outcome.aborted⟩
  | rw.Outcome.threw e => ⟨[], rw.Outcome.threw e⟩
  | rw.Outcome.returned _ =>
    let block := self.tryBlock buildRoot relPathFromRoot fileName extention sourceStream
      isInArchive
    match block.completion with
    | rw.Outcome.aborted => ⟨block.events, rw.Outcome.aborted⟩
    | rw.Outcome.threw (rw.Exception.foreign tag) =>
      ⟨block.events, rw.Outcome.threw (rw.Exception.foreign tag)⟩
    | rw.Outcome.threw (rw.Exception.RwException _) =>
      ⟨block.events, rw.Outcome.returned block.anyWork⟩
    | rw.Outcome.returned _ => ⟨block.events, rw.Outcome.returned block.anyWork⟩

/-- The names handed to `Open`, in order. -/
def openedFiles (events : List Event) : List filePath :=
  events.filterMap (fun e =>
    match e with
    | Event.Open targetFileName _ => some targetFileName
    | _ => none)

/-- The names that the export of a dictionary is expected to open: one per
texture that has a raster, in iteration order. -/
def expectedFiles (texDict : TexDictionary) (txdFileName relPathFromRoot : filePath)
    (outputType : eOutputType) (imgFormat : String) : List filePath :=
  (texDict.textures.filter (fun texHandle => texHandle.raster.isSome)).map
    (fun texHandle =>
      targetFileName relPathFromRoot txdFileName outputType texHandle.name imgFormat)

/-- A small concrete dictionary: two textures with a raster around one without. -/
def sampleDict : TexDictionary :=
  { object := 500
    textures := [⟨"wall", some 1⟩, ⟨"mask", none⟩, ⟨"roof", some 2⟩] }

/-- A small concrete engine: every call returns; writing the raster at address
`failing` ends as `failure` says. -/
def sampleEngine (failing : Nat) (failure : rw.Outcome Unit) : Engine :=
  { CheckThreadHazards := rw.Outcome.returned ()
    RwStreamCreateTranslated := fun file => rw.Outcome.returned (some (file + 1))
    Deserialize := fun _ => rw.Outcome.returned (some 500)
    ToTexDictionary := fun _ => rw.Outcome.returned (some sampleDict)
    Serialize := fun _ _ => rw.Outcome.returned ()
    writeImage := fun texRaster _ _ =>
      if texRaster = failing then failure else rw.Outcome.returned () }

/-- A small concrete translator: every file opens as stream 7, the directory of
every path is `models/`. -/
def sampleRoot : CFileTranslator :=
  { Open := fun _ _ => some 7
    GetRelativePathFromRoot := fun _ _ => rw.Outcome.returned "models/" }

/-- A small concrete sentry: output type `OUTPUT_TXDNAME`, image format `PNG`. -/
def sampleSentry (failing : Nat) (failure : rw.Outcome Unit) : _discFileSentry_txdexport :=
  { module :=
      { GetEngine := sampleEngine failing failure
        OnProcessingFile := fun _ => rw.Outcome.returned () }
    config := { outputType := eOutputType.OUTPUT_TXDNAME, recImgFormat := "PNG" } }

/-- A small concrete sentry whose engine fails to parse the source stream:
`Deserialize` throws an `rw::RwException`. -/
def brokenSentry : _discFileSentry_txdexport :=
  { module :=
      { GetEngine :=
          { sampleEngine 0 (rw.Outcome.returned ()) with
            Deserialize := fun _ =>
              rw.Outcome.threw (rw.Exception.RwException "bad chunk") }
        OnProcessingFile := fun _ => rw.Outcome.returned () }
    config := { outputType := eOutputType.OUTPUT_PLAIN, recImgFormat := "PNG" } }

end TxdExport

namespace NativeExecutive

/-! ## Elementary facts about the memory updates -/

@[simp]
theorem Mem.setFiber_fibers_same (m : Mem) (p : Nat) (f : CFiber) :
    (m.setFiber p f).fibers p = f := by
  simp [Mem.setFiber]

theorem Mem.setFiber_fibers_other (m : Mem) (p q : Nat) (f : CFiber) (h : q ≠ p) :
    (m.setFiber p f).fibers q = m.fibers q := by
  simp [Mem.setFiber, h]

@[simp]
theorem Mem.setFiber_fiberStack (m : Mem) (p : Nat) (f : CFiber) :
    (m.setFiber p f).fiberStack = m.fiberStack := rfl

@[simp]
theorem Mem.setStack_fibers (m : Mem) (t : Nat) (s : List Nat) :
    (m.setStack t s).fibers = m.fibers := rfl

@[simp]
theorem Mem.setStack_fiberStack_same (m : Mem) (t : Nat) (s : List Nat) :
    (m.setStack t s).fiberStack t = s := by
  simp [Mem.setStack]

theorem Mem.setStack_fiberStack_other (m : Mem) (t u : Nat) (s : List Nat) (h : u ≠ t) :
    (m.setStack t s).fiberStack u = m.fiberStack u := by
  simp [Mem.setStack, h]

@[simp]
theorem Mem.setFiber_setFiber (m : Mem) (p : Nat) (f g : CFiber) :
    (m.setFiber p f).setFiber p g = m.setFiber p g := by
  simp only [Mem.setFiber]
  congr 1
  funext q
  by_cases hq : q = p <;> simp [hq]

/-- What `resume` computes on a suspended fiber, in one step. -/
theorem resume_eq_of_suspended (self thread timer : Nat) (w : Exec)
    (h : (w.mem.fibers self).status = eFiberStatus.FIBER_SUSPENDED) :
    CFiber.resume self thread timer w =
      { mem := ((w.mem.setFiber self { w.mem.fibers self with
                  resumeTimer := timer, status := eFiberStatus.FIBER_RUNNING }).setStack
                  thread (self :: w.mem.fiberStack thread))
        switches := w.switches ++ [⟨SwitchKind.eswitch, (w.mem.fibers self).callee,
          (w.mem.fibers self).runtime,
          ((w.mem.setFiber self { w.mem.fibers self with
              resumeTimer := timer, status := eFiberStatus.FIBER_RUNNING }).setStack
              thread (self :: w.mem.fiberStack thread))⟩] } := by
  simp only [CFiber.resume, h, if_true, ExecutiveFiber.eswitch, CFiber.push_on_stack,
    Mem.setFiber_fibers_same, Mem.setFiber_fiberStack, Mem.setStack_fibers,
    Mem.setFiber_setFiber]

/-- A fiber that is not suspended is left alone by `resume`. -/
theorem resume_eq_of_not_suspended (self thread timer : Nat) (w : Exec)
    (h : (w.mem.fibers self).status ≠ eFiberStatus.FIBER_SUSPENDED) :
    CFiber.resume self thread timer w = w := by
  simp [CFiber.resume, h]

/-- What `yield` computes when both assertions hold, in one step. -/
theorem yield_eq_of_running_top (self thread : Nat) (w : Exec)
    (hs : (w.mem.fibers self).status = eFiberStatus.FIBER_RUNNING)
    (ht : (w.mem.fiberStack thread).head? = some self) :
    CFiber.yield self thread w = Except.ok
      { mem := ((w.mem.setFiber self { w.mem.fibers self with
                  status := eFiberStatus.FIBER_SUSPENDED }).setStack
                  thread (w.mem.fiberStack thread).tail)
        switches := w.switches ++ [⟨SwitchKind.qswitch, (w.mem.fibers self).runtime,
          (w.mem.fibers self).callee,
          ((w.mem.setFiber self { w.mem.fibers self with
              status := eFiberStatus.FIBER_SUSPENDED }).setStack
              thread (w.mem.fiberStack thread).tail)⟩] } := by
  simp [CFiber.yield, hs, ht, CFiber.is_current_on_stack, ExecutiveFiber.qswitch,
    CFiber.pop_from_stack]

/-- The first assertion of `yield`. -/
theorem yield_eq_of_not_running (self thread : Nat) (w : Exec)
    (hs : (w.mem.fibers self).status ≠ eFiberStatus.FIBER_RUNNING) :
    CFiber.yield self thread w = Except.error w := by
  simp [CFiber.yield, hs]

/-- The second assertion of `yield`. -/
theorem yield_eq_of_not_top (self thread : Nat) (w : Exec)
    (ht : (w.mem.fiberStack thread).head? ≠ some self) :
    CFiber.yield self thread w = Except.error w := by
  by_cases hs : (w.mem.fibers self).status = eFiberStatus.FIBER_RUNNING
  · simp [CFiber.yield, hs, ht, CFiber.is_current_on_stack]
  · exact yield_eq_of_not_running self thread w hs

/-! ## The claims -/

/-- C1. On a fiber whose status is RUNNING or TERMINATED, `resume` is a no-op:
the whole state is returned as it was, so the status, `resumeTimer`, every
thread's active-fiber stack and the log of performed context switches are
unchanged (no `eswitch` is performed). -/
theorem resume_noop_running_or_terminated (self thread timer : Nat) (w : Exec)
    (h : w.status self = eFiberStatus.FIBER_RUNNING ∨
         w.status self = eFiberStatus.FIBER_TERMINATED) :
    CFiber.resume self thread timer w = w ∧
    (CFiber.resume self thread timer w).status self = w.status self ∧
    ((CFiber.resume self thread timer w).mem.fibers self).resumeTimer
      = (w.mem.fibers self).resumeTimer ∧
    (CFiber.resume self thread timer w).stack thread = w.stack thread ∧
    (CFiber.resume self thread timer w).switches = w.switches := by
  have hne : (w.mem.fibers self).status ≠ eFiberStatus.FIBER_SUSPENDED := by
    rcases h with h | h <;> simp only [Exec.status] at h <;> rw [h] <;> decide
  rw [resume_eq_of_not_suspended self thread timer w hne]
  exact ⟨rfl, rfl, rfl, rfl, rfl⟩

/-- Witness for C1: a RUNNING fiber at address 1, resumed by thread 0. -/
theorem resume_noop_running_or_terminated_witness :
    CFiber.resume 1 0 42 (sample eFiberStatus.FIBER_RUNNING [1]) =
        sample eFiberStatus.FIBER_RUNNING [1] ∧
    (CFiber.resume 1 0 42 (sample eFiberStatus.FIBER_RUNNING [1])).switches = [] :=
  ⟨(resume_noop_running_or_terminated 1 0 42 (sample eFiberStatus.FIBER_RUNNING [1])
      (Or.inl rfl)).1,
   (resume_noop_running_or_terminated 1 0 42 (sample eFiberStatus.FIBER_RUNNING [1])
      (Or.inl rfl)).2.2.2.2⟩

/-- C2. On a SUSPENDED fiber, `resume` sets the status to RUNNING, stores the
current performance-timer value in `resumeTimer`, puts the fiber on top of the
calling thread's active-fiber stack, and then performs exactly one `eswitch`:
the log grows by one `eswitch` record, and the memory that record saw is already
the final one (status, timer and stack updated). -/
theorem resume_suspended_effect (self thread timer : Nat) (w : Exec)
    (h : w.status self = eFiberStatus.FIBER_SUSPENDED) :
    (CFiber.resume self thread timer w).status self = eFiberStatus.FIBER_RUNNING ∧
    ((CFiber.resume self thread timer w).mem.fibers self).resumeTimer = timer ∧
    (CFiber.resume self thread timer w).stack thread = self :: w.stack thread ∧
    ((CFiber.resume self thread timer w).stack thread).head? = some self ∧
    (∃ r : SwitchRecord,
      (CFiber.resume self thread timer w).switches = w.switches ++ [r] ∧
      r.kind = SwitchKind.eswitch ∧
      r.seen = (CFiber.resume self thread timer w).mem ∧
      (r.seen.fibers self).status = eFiberStatus.FIBER_RUNNING ∧
      (r.seen.fibers self).resumeTimer = timer ∧
      r.seen.fiberStack thread = self :: w.stack thread) := by
  simp only [Exec.status] at h
  rw [resume_eq_of_suspended self thread timer w h]
  refine ⟨?_, ?_, ?_, ?_, ⟨_, rfl, rfl, rfl, ?_, ?_, ?_⟩⟩ <;>
    simp [Exec.status, Exec.stack]

/-- Witness for C2: a SUSPENDED fiber at address 1, thread 0 has the stack `[7]`. -/
theorem resume_suspended_effect_witness :
    (sample eFiberStatus.FIBER_SUSPENDED [7]).status 1 = eFiberStatus.FIBER_SUSPENDED ∧
    (CFiber.resume 1 0 42 (sample eFiberStatus.FIBER_SUSPENDED [7])).status 1
      = eFiberStatus.FIBER_RUNNING ∧
    (CFiber.resume 1 0 42 (sample eFiberStatus.FIBER_SUSPENDED [7])).stack 0 = [1, 7] :=
  ⟨rfl,
   (resume_suspended_effect 1 0 42 (sample eFiberStatus.FIBER_SUSPENDED [7]) rfl).1,
   (resume_suspended_effect 1 0 42 (sample eFiberStatus.FIBER_SUSPENDED [7]) rfl).2.2.1⟩

/-- C3. `yield` fails on an assertion exactly when the status is not RUNNING or
the fiber is not the top entry of the calling thread's active-fiber stack; the
state handed back by a failed `yield` is the state it was called in, so status,
stacks and the switch log are unmodified. -/
theorem yield_fails_iff (self thread : Nat) (w : Exec) :
    ((∃ e, CFiber.yield self thread w = Except.error e) ↔
      (w.status self ≠ eFiberStatus.FIBER_RUNNING ∨
       (w.stack thread).head? ≠ some self)) ∧
    (∀ e, CFiber.yield self thread w = Except.error e →
      e = w ∧ e.status self = w.status self ∧ e.stack thread = w.stack thread ∧
      e.switches = w.switches) := by
  by_cases hs : (w.mem.fibers self).status = eFiberStatus.FIBER_RUNNING
  · by_cases ht : (w.mem.fiberStack thread).head? = some self
    · rw [yield_eq_of_running_top self thread w hs ht]
      simp [Exec.status, Exec.stack, hs, ht]
    · rw [yield_eq_of_not_top self thread w ht]
      refine ⟨⟨fun _ => Or.inr ht, fun _ => ⟨w, rfl⟩⟩, ?_⟩
      intro e he
      cases he
      exact ⟨rfl, rfl, rfl, rfl⟩
  · rw [yield_eq_of_not_running self thread w hs]
    refine ⟨⟨fun _ => Or.inl hs, fun _ => ⟨w, rfl⟩⟩, ?_⟩
    intro e he
    cases he
    exact ⟨rfl, rfl, rfl, rfl⟩

/-- C4. On a RUNNING fiber that is the top entry of the calling thread's stack,
`yield` succeeds, sets the status to SUSPENDED, removes exactly the top entry
(the entries below stay as they were, other threads' stacks are untouched),
leaves `resumeTimer` unchanged, and then performs exactly one `qswitch`: the
log grows by one `qswitch` record whose memory is already the final one. -/
theorem yield_running_top_effect (self thread : Nat) (w : Exec)
    (hs : w.status self = eFiberStatus.FIBER_RUNNING)
    (ht : (w.stack thread).head? = some self) :
    ∃ w1, CFiber.yield self thread w = Except.ok w1 ∧
      w1.status self = eFiberStatus.FIBER_SUSPENDED ∧
      w.stack thread = self :: w1.stack thread ∧
      (∀ t, t ≠ thread → w1.stack t = w.stack t) ∧
      (w1.mem.fibers self).resumeTimer = (w.mem.fibers self).resumeTimer ∧
      (∃ r : SwitchRecord, w1.switches = w.switches ++ [r] ∧
        r.kind = SwitchKind.qswitch ∧ r.seen = w1.mem ∧
        (r.seen.fibers self).status = eFiberStatus.FIBER_SUSPENDED ∧
        w.stack thread = self :: r.seen.fiberStack thread) := by
  simp only [Exec.status, Exec.stack] at hs ht
  have hcons : w.mem.fiberStack thread = self :: (w.mem.fiberStack thread).tail := by
    cases hl : w.mem.fiberStack thread with
    | nil => rw [hl] at ht; simp at ht
    | cons a l => rw [hl] at ht; simp at ht; simp [ht]
  refine ⟨_, yield_eq_of_running_top self thread w hs ht, ?_, ?_, ?_, ?_,
    ⟨_, rfl, rfl, rfl, ?_, ?_⟩⟩
  · simp [Exec.status]
  · simpa [Exec.stack] using hcons
  · intro t hne
    simp [Exec.stack, Mem.setStack_fiberStack_other _ _ _ _ hne]
  · simp
  · simp
  · simpa [Exec.stack] using hcons

/-- Witness for C4: the RUNNING fiber 1 is on top of thread 0's stack `[1, 7]`. -/
theorem yield_running_top_effect_witness :
    (sample eFiberStatus.FIBER_RUNNING [1, 7]).status 1 = eFiberStatus.FIBER_RUNNING ∧
    ((sample eFiberStatus.FIBER_RUNNING [1, 7]).stack 0).head? = some 1 ∧
    ∃ w1, CFiber.yield 1 0 (sample eFiberStatus.FIBER_RUNNING [1, 7]) = Except.ok w1 ∧
      w1.status 1 = eFiberStatus.FIBER_SUSPENDED ∧ w1.stack 0 = [7] := by
  refine ⟨rfl, rfl, ?_⟩
  obtain ⟨w1, h1, h2, h3, _⟩ :=
    yield_running_top_effect 1 0 (sample eFiberStatus.FIBER_RUNNING [1, 7]) rfl rfl
  refine ⟨w1, h1, h2, ?_⟩
  have h4 : [1, 7] = 1 :: w1.stack 0 := h3
  simpa using h4.symm

/-! ### Frame lemmas for single calls -/

theorem resume_fibers_other (p q thread timer : Nat) (w : Exec) (h : q ≠ p) :
    (CFiber.resume p thread timer w).mem.fibers q = w.mem.fibers q := by
  by_cases hs : (w.mem.fibers p).status = eFiberStatus.FIBER_SUSPENDED
  · rw [resume_eq_of_suspended p thread timer w hs]
    simp [Mem.setFiber_fibers_other _ _ _ _ h]
  · rw [resume_eq_of_not_suspended p thread timer w hs]

/-- A successful `yield` passed both assertions and produced the expected state. -/
theorem yield_ok_inv (p thread : Nat) (w w1 : Exec)
    (h : CFiber.yield p thread w = Except.ok w1) :
    (w.mem.fibers p).status = eFiberStatus.FIBER_RUNNING ∧
    (w.mem.fiberStack thread).head? = some p ∧
    w1.mem = ((w.mem.setFiber p { w.mem.fibers p with
                  status := eFiberStatus.FIBER_SUSPENDED }).setStack
                  thread (w.mem.fiberStack thread).tail) := by
  by_cases hs : (w.mem.fibers p).status = eFiberStatus.FIBER_RUNNING
  · by_cases ht : (w.mem.fiberStack thread).head? = some p
    · rw [yield_eq_of_running_top p thread w hs ht] at h
      cases h
      exact ⟨hs, ht, rfl⟩
    · rw [yield_eq_of_not_top p thread w ht] at h
      cases h
  · rw [yield_eq_of_not_running p thread w hs] at h
    cases h

theorem yield_fibers_other (p q thread : Nat) (w w1 : Exec)
    (h : CFiber.yield p thread w = Except.ok w1) (hq : q ≠ p) :
    w1.mem.fibers q = w.mem.fibers q := by
  rw [(yield_ok_inv p thread w w1 h).2.2]
  simp [Mem.setFiber_fibers_other _ _ _ _ hq]

/-- A failed call hands back the state it was called in. -/
theorem exec_error_inv (c : Call) (w e : Exec) (h : c.exec w = Except.error e) : e = w := by
  cases c with
  | resume p t n => simp [Call.exec] at h
  | yield p t =>
    simp only [Call.exec] at h
    by_cases hs : (w.mem.fibers p).status = eFiberStatus.FIBER_RUNNING
    · by_cases ht : (w.mem.fiberStack t).head? = some p
      · rw [yield_eq_of_running_top p t w hs ht] at h
        cases h
      · rw [yield_eq_of_not_top p t w ht] at h
        cases h
        rfl
    · rw [yield_eq_of_not_running p t w hs] at h
      cases h
      rfl

/-- The only status changes a performed call can make to the fiber at `self`. -/
theorem exec_status_step (self : Nat) (c : Call) (w w1 : Exec)
    (h : c.exec w = Except.ok w1) :
    w1.status self = w.status self ∨
    ((∃ t n, c = Call.resume self t n) ∧
      w.status self = eFiberStatus.FIBER_SUSPENDED ∧
      w1.status self = eFiberStatus.FIBER_RUNNING) ∨
    ((∃ t, c = Call.yield self t) ∧
      w.status self = eFiberStatus.FIBER_RUNNING ∧
      w1.status self = eFiberStatus.FIBER_SUSPENDED) := by
  cases c with
  | resume p t n =>
    simp only [Call.exec, Except.ok.injEq] at h
    subst h
    by_cases hp : self = p
    · subst hp
      by_cases hs : (w.mem.fibers self).status = eFiberStatus.FIBER_SUSPENDED
      · refine Or.inr (Or.inl ⟨⟨t, n, rfl⟩, hs, ?_⟩)
        rw [resume_eq_of_suspended self t n w hs]
        simp [Exec.status]
      · rw [resume_eq_of_not_suspended self t n w hs]
        exact Or.inl rfl
    · exact Or.inl (by simp [Exec.status, resume_fibers_other p self t n w hp])
  | yield p t =>
    simp only [Call.exec] at h
    by_cases hp : self = p
    · subst hp
      obtain ⟨hs, _, hm⟩ := yield_ok_inv self t w w1 h
      refine Or.inr (Or.inr ⟨⟨t, rfl⟩, hs, ?_⟩)
      simp [Exec.status, hm]
    · exact Or.inl (by simp [Exec.status, yield_fibers_other p self t w w1 h hp])

theorem statusHistory_ne_nil (self : Nat) (cs : List Call) (w : Exec) :
    ∃ l, statusHistory self cs w = w.status self :: l := by
  cases cs with
  | nil => exact ⟨[], rfl⟩
  | cons c cs =>
    cases hc : c.exec w with
    | ok w1 => exact ⟨statusHistory self cs w1, by simp [statusHistory, hc]⟩
    | error e => exact ⟨[], by simp [statusHistory, hc]⟩

/-- From a RUNNING or SUSPENDED start, the changes of the history alternate. -/
theorem changes_statusHistory (self : Nat) (cs : List Call) :
    ∀ w : Exec, w.status self ≠ eFiberStatus.FIBER_TERMINATED →
      changes (statusHistory self cs w) =
        alternation (w.status self) (changes (statusHistory self cs w)).length := by
  induction cs with
  | nil => intro w _; simp [statusHistory, changes, alternation]
  | cons c cs ih =>
    intro w hw
    cases hc : c.exec w with
    | error e => simp [statusHistory, hc, changes, alternation]
    | ok w1 =>
      obtain ⟨l, hl⟩ := statusHistory_ne_nil self cs w1
      have hstep := exec_status_step self c w w1 hc
      have hw1 : w1.status self ≠ eFiberStatus.FIBER_TERMINATED := by
        rcases hstep with h | ⟨_, _, h⟩ | ⟨_, _, h⟩
        · rw [h]; exact hw
        · rw [h]; decide
        · rw [h]; decide
      have ih1 := ih w1 hw1
      simp only [statusHistory, hc]
      rw [hl] at ih1 ⊢
      by_cases heq : w.status self = w1.status self
      · rw [heq]
        simpa [changes] using ih1
      · have hother : w1.status self = (w.status self).other := by
          rcases hstep with h | ⟨_, h0, h1⟩ | ⟨_, h0, h1⟩
          · exact absurd h.symm heq
          · rw [h0, h1]; rfl
          · rw [h0, h1]; rfl
        simp only [changes, heq, if_false, List.length_cons, alternation]
        rw [← hother]
        exact congrArg _ ih1

theorem transitions_step (self : Nat) (cs : List Call) :
    ∀ w : Exec, w.status self ≠ eFiberStatus.FIBER_TERMINATED →
      ∀ tr ∈ transitions cs w,
        tr.2.1.exec tr.1 = Except.ok tr.2.2 ∧
        tr.1.status self ≠ eFiberStatus.FIBER_TERMINATED ∧
        tr.2.2.status self ≠ eFiberStatus.FIBER_TERMINATED := by
  induction cs with
  | nil => intro w _ tr htr; simp [transitions] at htr
  | cons c cs ih =>
    intro w hw tr htr
    cases hc : c.exec w with
    | error e => simp [transitions, hc] at htr
    | ok w1 =>
      have hw1 : w1.status self ≠ eFiberStatus.FIBER_TERMINATED := by
        rcases exec_status_step self c w w1 hc with h | ⟨_, _, h⟩ | ⟨_, _, h⟩
        · rw [h]; exact hw
        · rw [h]; decide
        · rw [h]; decide
      simp only [transitions, hc, List.mem_cons] at htr
      rcases htr with rfl | htr
      · exact ⟨hc, hw, hw1⟩
      · exact ih w1 hw1 tr htr

theorem statusHistory_ne_terminated (self : Nat) (cs : List Call) :
    ∀ w : Exec, w.status self ≠ eFiberStatus.FIBER_TERMINATED →
      ∀ s ∈ statusHistory self cs w, s ≠ eFiberStatus.FIBER_TERMINATED := by
  induction cs with
  | nil =>
    intro w hw s hs
    simp only [statusHistory, List.mem_singleton] at hs
    rw [hs]; exact hw
  | cons c cs ih =>
    intro w hw s hs
    cases hc : c.exec w with
    | error e =>
      simp only [statusHistory, hc, List.mem_singleton] at hs
      rw [hs]; exact hw
    | ok w1 =>
      have hw1 : w1.status self ≠ eFiberStatus.FIBER_TERMINATED := by
        rcases exec_status_step self c w w1 hc with h | ⟨_, _, h⟩ | ⟨_, _, h⟩
        · rw [h]; exact hw
        · rw [h]; decide
        · rw [h]; decide
      simp only [statusHistory, hc, List.mem_cons] at hs
      rcases hs with rfl | hs
      · exact hw
      · exact ih w1 hw1 s hs

theorem construct_status (w : Exec) (self manager group runtime makefiber : Nat) :
    (w.construct self manager group runtime makefiber).status self
      = eFiberStatus.FIBER_SUSPENDED := by
  simp [Exec.construct, Exec.status, CFiber.ctor]

/-- C5. Start from a freshly constructed fiber at `self` and perform any
sequence of `resume` and `yield` calls (on this or on other fibers) as far as
the yields succeed. Then the status changes of the fiber strictly alternate
SUSPENDED, RUNNING, SUSPENDED, ...; every performed call that changes the
status to RUNNING is a `resume` of this fiber found SUSPENDED, every performed
call that changes it to SUSPENDED is a `yield` of this fiber found RUNNING, and
the status is never TERMINATED. -/
theorem status_alternates_from_construction
    (w : Exec) (self manager group runtime makefiber : Nat) (cs : List Call) :
    changes (statusHistory self cs (w.construct self manager group runtime makefiber)) =
      alternation eFiberStatus.FIBER_SUSPENDED
        (changes (statusHistory self cs
          (w.construct self manager group runtime makefiber))).length ∧
    (∀ tr ∈ transitions cs (w.construct self manager group runtime makefiber),
      (tr.2.2.status self ≠ tr.1.status self →
        tr.2.2.status self = eFiberStatus.FIBER_RUNNING →
          (∃ t n, tr.2.1 = Call.resume self t n) ∧
          tr.1.status self = eFiberStatus.FIBER_SUSPENDED) ∧
      (tr.2.2.status self ≠ tr.1.status self →
        tr.2.2.status self = eFiberStatus.FIBER_SUSPENDED →
          (∃ t, tr.2.1 = Call.yield self t) ∧
          tr.1.status self = eFiberStatus.FIBER_RUNNING) ∧
      tr.2.2.status self ≠ eFiberStatus.FIBER_TERMINATED) ∧
    (∀ s ∈ statusHistory self cs (w.construct self manager group runtime makefiber),
      s ≠ eFiberStatus.FIBER_TERMINATED) := by
  have h0 := construct_status w self manager group runtime makefiber
  have hT : (w.construct self manager group runtime makefiber).status self
      ≠ eFiberStatus.FIBER_TERMINATED := by rw [h0]; decide
  refine ⟨?_, ?_, ?_⟩
  · have h := changes_statusHistory self cs _ hT
    rw [h0] at h
    exact h
  · intro tr htr
    obtain ⟨hex, _, hafter⟩ := transitions_step self cs _ hT tr htr
    refine ⟨?_, ?_, hafter⟩
    · intro hne hrun
      rcases exec_status_step self tr.2.1 tr.1 tr.2.2 hex with h | ⟨hc, hb, _⟩ | ⟨_, _, ha⟩
      · exact absurd h hne
      · exact ⟨hc, hb⟩
      · rw [ha] at hrun; cases hrun
    · intro hne hsus
      rcases exec_status_step self tr.2.1 tr.1 tr.2.2 hex with h | ⟨_, _, ha⟩ | ⟨hc, hb, _⟩
      · exact absurd h hne
      · rw [ha] at hsus; cases hsus
      · exact ⟨hc, hb⟩
  · exact statusHistory_ne_terminated self cs _ hT

/-- Witness for C5: fiber 1 is constructed, resumed twice, yields, and another
fiber is resumed in between. -/
theorem status_alternates_from_construction_witness :
    changes (statusHistory 1
        [Call.resume 1 0 5, Call.resume 1 0 6, Call.yield 1 0, Call.resume 2 0 7,
          Call.resume 1 0 8]
        ((sample eFiberStatus.FIBER_TERMINATED [9]).construct 1 0 0 201 101)) =
      [eFiberStatus.FIBER_SUSPENDED, eFiberStatus.FIBER_RUNNING,
        eFiberStatus.FIBER_SUSPENDED, eFiberStatus.FIBER_RUNNING] := by
  have h := (status_alternates_from_construction (sample eFiberStatus.FIBER_TERMINATED [9])
    1 0 0 201 101 [Call.resume 1 0 5, Call.resume 1 0 6, Call.yield 1 0, Call.resume 2 0 7,
          Call.resume 1 0 8]).1
  rw [h]
  decide

/-! ### TERMINATED is absorbing -/

theorem exec_status_terminated (self : Nat) (c : Call) (w w1 : Exec)
    (hw : w.status self = eFiberStatus.FIBER_TERMINATED)
    (h : c.exec w = Except.ok w1 ∨ c.exec w = Except.error w1) :
    w1.status self = eFiberStatus.FIBER_TERMINATED := by
  rcases h with h | h
  · rcases exec_status_step self c w w1 h with h1 | ⟨_, h0, _⟩ | ⟨_, h0, _⟩
    · rw [h1]; exact hw
    · rw [hw] at h0; cases h0
    · rw [hw] at h0; cases h0
  · rw [exec_error_inv c w w1 h]; exact hw

theorem runCatching_status_terminated (self : Nat) (cs : List Call) :
    ∀ w : Exec, w.status self = eFiberStatus.FIBER_TERMINATED →
      (runCatching cs w).status self = eFiberStatus.FIBER_TERMINATED := by
  induction cs with
  | nil => intro w hw; exact hw
  | cons c cs ih =>
    intro w hw
    cases hc : c.exec w with
    | ok w1 =>
      simp only [runCatching, hc]
      exact ih w1 (exec_status_terminated self c w w1 hw (Or.inl hc))
    | error e =>
      simp only [runCatching, hc]
      exact ih e (exec_status_terminated self c w e hw (Or.inr hc))

theorem run_status_terminated (self : Nat) (cs : List Call) :
    ∀ w w1 : Exec, w.status self = eFiberStatus.FIBER_TERMINATED →
      run cs w = Except.ok w1 → w1.status self = eFiberStatus.FIBER_TERMINATED := by
  induction cs with
  | nil =>
    intro w w1 hw h
    simp only [run, Except.ok.injEq] at h
    rw [← h]; exact hw
  | cons c cs ih =>
    intro w w1 hw h
    cases hc : c.exec w with
    | ok w2 =>
      simp only [run, hc] at h
      exact ih w2 w1 (exec_status_terminated self c w w2 hw (Or.inl hc)) h
    | error e => simp [run, hc] at h

/-- C6. TERMINATED is absorbing: on a TERMINATED fiber every `resume` returns
the state unchanged (status still TERMINATED), every `yield` is rejected and
hands back the state unchanged, and after any sequence of `resume` / `yield`
calls on any fibers -- whether a rejected call is caught and the run goes on,
or the run is required to succeed -- the status is still TERMINATED. -/
theorem terminated_is_absorbing (self : Nat) (w : Exec)
    (h : w.status self = eFiberStatus.FIBER_TERMINATED) :
    (∀ thread timer, CFiber.resume self thread timer w = w ∧
      (CFiber.resume self thread timer w).status self = eFiberStatus.FIBER_TERMINATED) ∧
    (∀ thread, CFiber.yield self thread w = Except.error w) ∧
    (∀ cs, (runCatching cs w).status self = eFiberStatus.FIBER_TERMINATED) ∧
    (∀ cs w1, run cs w = Except.ok w1 →
      w1.status self = eFiberStatus.FIBER_TERMINATED) := by
  have hne : (w.mem.fibers self).status ≠ eFiberStatus.FIBER_SUSPENDED := by
    simp only [Exec.status] at h; rw [h]; decide
  have hnr : (w.mem.fibers self).status ≠ eFiberStatus.FIBER_RUNNING := by
    simp only [Exec.status] at h; rw [h]; decide
  refine ⟨?_, ?_, ?_, ?_⟩
  · intro thread timer
    rw [resume_eq_of_not_suspended self thread timer w hne]
    exact ⟨rfl, h⟩
  · intro thread
    exact yield_eq_of_not_running self thread w hnr
  · intro cs
    exact runCatching_status_terminated self cs w h
  · intro cs w1 hr
    exact run_status_terminated self cs w w1 h hr

/-- Witness for C6: the TERMINATED fiber 1, after being resumed and asked to
yield while another fiber runs, is still TERMINATED. -/
theorem terminated_is_absorbing_witness :
    (sample eFiberStatus.FIBER_TERMINATED []).status 1 = eFiberStatus.FIBER_TERMINATED ∧
    CFiber.yield 1 0 (sample eFiberStatus.FIBER_TERMINATED []) =
      Except.error (sample eFiberStatus.FIBER_TERMINATED []) ∧
    (runCatching [Call.resume 1 0 5, Call.yield 1 0, Call.resume 1 1 6]
      (sample eFiberStatus.FIBER_TERMINATED [])).status 1 = eFiberStatus.FIBER_TERMINATED :=
  ⟨rfl,
   (terminated_is_absorbing 1 (sample eFiberStatus.FIBER_TERMINATED []) rfl).2.1 0,
   (terminated_is_absorbing 1 (sample eFiberStatus.FIBER_TERMINATED []) rfl).2.2.1
     [Call.resume 1 0 5, Call.yield 1 0, Call.resume 1 1 6]⟩

/-! ### The invariant of the active-fiber stacks -/

theorem resume_stack_of_suspended (p t n : Nat) (w : Exec)
    (h : w.status p = eFiberStatus.FIBER_SUSPENDED) (u : Nat) :
    (CFiber.resume p t n w).stack u = if u = t then p :: w.stack t else w.stack u := by
  simp only [Exec.status] at h
  rw [resume_eq_of_suspended p t n w h]
  by_cases hu : u = t
  · subst hu; simp [Exec.stack]
  · simp [Exec.stack, hu, Mem.setStack_fiberStack_other _ _ _ _ hu]

theorem resume_status_of_suspended (p t n : Nat) (w : Exec)
    (h : w.status p = eFiberStatus.FIBER_SUSPENDED) (q : Nat) :
    (CFiber.resume p t n w).status q =
      if q = p then eFiberStatus.FIBER_RUNNING else w.status q := by
  by_cases hq : q = p
  · subst hq
    simp only [Exec.status] at h
    rw [resume_eq_of_suspended q t n w h]
    simp [Exec.status]
  · simp [Exec.status, hq, resume_fibers_other p q t n w hq]

theorem yield_ok_stack (p t : Nat) (w w1 : Exec)
    (h : CFiber.yield p t w = Except.ok w1) (u : Nat) :
    w1.stack u = if u = t then (w.stack t).tail else w.stack u := by
  rw [Exec.stack, (yield_ok_inv p t w w1 h).2.2]
  by_cases hu : u = t
  · subst hu; simp [Exec.stack]
  · simp [Exec.stack, hu, Mem.setStack_fiberStack_other _ _ _ _ hu]

theorem yield_ok_status (p t : Nat) (w w1 : Exec)
    (h : CFiber.yield p t w = Except.ok w1) (q : Nat) :
    w1.status q = if q = p then eFiberStatus.FIBER_SUSPENDED else w.status q := by
  by_cases hq : q = p
  · subst hq
    rw [Exec.status, (yield_ok_inv q t w w1 h).2.2]
    simp
  · simp [Exec.status, hq, yield_fibers_other p q t w w1 h hq]

theorem yield_ok_stack_cons (p t : Nat) (w w1 : Exec)
    (h : CFiber.yield p t w = Except.ok w1) :
    w.stack t = p :: w1.stack t := by
  have ht := (yield_ok_inv p t w w1 h).2.1
  rw [yield_ok_stack p t w w1 h t, if_pos rfl]
  simp only [Exec.stack]
  cases hl : w.mem.fiberStack t with
  | nil => rw [hl] at ht; simp at ht
  | cons a l => rw [hl] at ht; simp at ht; simp [ht]

theorem stackInvariant_resume (p t n : Nat) (w : Exec) (hI : StackInvariant w) :
    StackInvariant (CFiber.resume p t n w) := by
  by_cases hs : w.status p = eFiberStatus.FIBER_SUSPENDED
  · obtain ⟨hnd, hdj, hrun⟩ := hI
    have hp : ∀ u, p ∉ w.stack u := by
      intro u hu
      have := (hrun p).1 ⟨u, hu⟩
      rw [hs] at this
      cases this
    refine ⟨?_, ?_, ?_⟩
    · intro u
      rw [resume_stack_of_suspended p t n w hs u]
      by_cases hu : u = t
      · rw [if_pos hu]
        exact List.nodup_cons.2 ⟨hp t, hnd t⟩
      · rw [if_neg hu]
        exact hnd u
    · intro a b q ha hb
      rw [resume_stack_of_suspended p t n w hs a] at ha
      rw [resume_stack_of_suspended p t n w hs b] at hb
      by_cases hat : a = t
      · by_cases hbt : b = t
        · rw [hat, hbt]
        · rw [if_pos hat] at ha
          rw [if_neg hbt] at hb
          rcases List.mem_cons.1 ha with hq | hq
          · rw [hq] at hb
            exact absurd hb (hp b)
          · rw [hat]
            exact hdj t b q hq hb
      · rw [if_neg hat] at ha
        by_cases hbt : b = t
        · rw [if_pos hbt] at hb
          rcases List.mem_cons.1 hb with hq | hq
          · rw [hq] at ha
            exact absurd ha (hp a)
          · rw [hbt]
            exact hdj a t q ha hq
        · rw [if_neg hbt] at hb
          exact hdj a b q ha hb
    · intro q
      rw [resume_status_of_suspended p t n w hs q]
      by_cases hq : q = p
      · rw [if_pos hq]
        refine ⟨fun _ => rfl, fun _ => ⟨t, ?_⟩⟩
        rw [resume_stack_of_suspended p t n w hs t, if_pos rfl, hq]
        exact List.mem_cons_self _ _
      · rw [if_neg hq, ← hrun q]
        constructor
        · rintro ⟨u, hu⟩
          rw [resume_stack_of_suspended p t n w hs u] at hu
          by_cases hut : u = t
          · rw [if_pos hut] at hu
            rcases List.mem_cons.1 hu with h | h
            · exact absurd h hq
            · exact ⟨t, h⟩
          · rw [if_neg hut] at hu
            exact ⟨u, hu⟩
        · rintro ⟨u, hu⟩
          refine ⟨u, ?_⟩
          rw [resume_stack_of_suspended p t n w hs u]
          by_cases hut : u = t
          · rw [if_pos hut]
            rw [hut] at hu
            exact List.mem_cons_of_mem _ hu
          · rw [if_neg hut]
            exact hu
  · rw [resume_eq_of_not_suspended p t n w hs]
    exact hI

theorem stackInvariant_yield (p t : Nat) (w w1 : Exec) (hI : StackInvariant w)
    (h : CFiber.yield p t w = Except.ok w1) : StackInvariant w1 := by
  obtain ⟨hnd, hdj, hrun⟩ := hI
  have hcons := yield_ok_stack_cons p t w w1 h
  have hst : ∀ u, u ≠ t → w1.stack u = w.stack u := by
    intro u hu
    rw [yield_ok_stack p t w w1 h u, if_neg hu]
  have hsub : ∀ u q, q ∈ w1.stack u → q ∈ w.stack u := by
    intro u q hq
    by_cases hu : u = t
    · rw [hu, hcons]
      rw [hu] at hq
      exact List.mem_cons_of_mem _ hq
    · rw [← hst u hu]
      exact hq
  have hndt : (p :: w1.stack t).Nodup := by
    rw [← hcons]; exact hnd t
  have hpt : p ∈ w.stack t := by
    rw [hcons]; exact List.mem_cons_self _ _
  refine ⟨?_, ?_, ?_⟩
  · intro u
    by_cases hu : u = t
    · rw [hu]
      exact (List.nodup_cons.1 hndt).2
    · rw [hst u hu]
      exact hnd u
  · intro a b q ha hb
    exact hdj a b q (hsub a q ha) (hsub b q hb)
  · intro q
    rw [yield_ok_status p t w w1 h q]
    by_cases hq : q = p
    · rw [if_pos hq]
      constructor
      · rintro ⟨u, hu⟩
        exfalso
        rw [hq] at hu
        by_cases hut : u = t
        · rw [hut] at hu
          exact (List.nodup_cons.1 hndt).1 hu
        · exact hut (hdj u t p (hsub u p hu) hpt)
      · intro hc
        cases hc
    · rw [if_neg hq, ← hrun q]
      constructor
      · rintro ⟨u, hu⟩
        exact ⟨u, hsub u q hu⟩
      · rintro ⟨u, hu⟩
        refine ⟨u, ?_⟩
        by_cases hut : u = t
        · rw [hut] at hu ⊢
          rw [hcons] at hu
          rcases List.mem_cons.1 hu with h1 | h1
          · exact absurd h1 hq
          · exact h1
        · rw [hst u hut]
          exact hu

theorem stackInvariant_run (cs : List Call) :
    ∀ w w1 : Exec, StackInvariant w → run cs w = Except.ok w1 → StackInvariant w1 := by
  induction cs with
  | nil =>
    intro w w1 hI h
    simp only [run, Except.ok.injEq] at h
    rw [← h]; exact hI
  | cons c cs ih =>
    intro w w1 hI h
    cases hc : c.exec w with
    | error e => simp [run, hc] at h
    | ok w2 =>
      simp only [run, hc] at h
      refine ih w2 w1 ?_ h
      cases c with
      | resume p t n =>
        simp only [Call.exec, Except.ok.injEq] at hc
        rw [← hc]
        exact stackInvariant_resume p t n w hI
      | yield p t =>
        exact stackInvariant_yield p t w w2 hI hc

/-- C7. In every state reached from "all fibers SUSPENDED, all active-fiber
stacks empty" by `resume` calls and successful `yield` calls (any fibers, any
threads), no stack holds a fiber twice, no fiber is on the stacks of two
threads, and a fiber is on some stack exactly when its status is RUNNING. -/
theorem reachable_stack_invariant (w0 w : Exec) (cs : List Call)
    (hs : ∀ p, w0.status p = eFiberStatus.FIBER_SUSPENDED)
    (hk : ∀ t, w0.stack t = [])
    (hr : run cs w0 = Except.ok w) :
    (∀ t p, (w.stack t).count p ≤ 1) ∧
    (∀ t u p, p ∈ w.stack t → p ∈ w.stack u → t = u) ∧
    (∀ p, (∃ t, p ∈ w.stack t) ↔ w.status p = eFiberStatus.FIBER_RUNNING) := by
  have h0 : StackInvariant w0 := by
    refine ⟨?_, ?_, ?_⟩
    · intro t; rw [hk t]; exact List.nodup_nil
    · intro t u p hp; rw [hk t] at hp; cases hp
    · intro p
      constructor
      · rintro ⟨t, hp⟩; rw [hk t] at hp; cases hp
      · intro hp; rw [hs p] at hp; cases hp
  obtain ⟨hnd, hdj, hrun⟩ := stackInvariant_run cs w0 w h0 hr
  exact ⟨fun t p => List.nodup_iff_count_le_one.1 (hnd t) p, hdj, hrun⟩

/-- Witness for C7: fibers 1 and 2 are resumed on thread 0, fiber 2 yields, and
fiber 3 is resumed on thread 1. -/
theorem reachable_stack_invariant_witness :
    (∀ p, (sample eFiberStatus.FIBER_SUSPENDED []).status p
      = eFiberStatus.FIBER_SUSPENDED) ∧
    (∀ t, (sample eFiberStatus.FIBER_SUSPENDED []).stack t = []) ∧
    run [Call.resume 1 0 5, Call.resume 2 0 6, Call.yield 2 0, Call.resume 3 1 7]
        (sample eFiberStatus.FIBER_SUSPENDED []) =
      Except.ok (runCatching
        [Call.resume 1 0 5, Call.resume 2 0 6, Call.yield 2 0, Call.resume 3 1 7]
        (sample eFiberStatus.FIBER_SUSPENDED [])) ∧
    (∀ p, (∃ t, p ∈ (runCatching
        [Call.resume 1 0 5, Call.resume 2 0 6, Call.yield 2 0, Call.resume 3 1 7]
        (sample eFiberStatus.FIBER_SUSPENDED [])).stack t) ↔
      (runCatching
        [Call.resume 1 0 5, Call.resume 2 0 6, Call.yield 2 0, Call.resume 3 1 7]
        (sample eFiberStatus.FIBER_SUSPENDED [])).status p = eFiberStatus.FIBER_RUNNING) :=
  ⟨fun _ => rfl, fun _ => rfl, rfl,
   (reachable_stack_invariant (sample eFiberStatus.FIBER_SUSPENDED []) _
      [Call.resume 1 0 5, Call.resume 2 0 6, Call.yield 2 0, Call.resume 3 1 7]
      (fun _ => rfl) (fun _ => rfl) rfl).2.2⟩

/-! ### Nested resumption and the resume / yield round trip -/

theorem yield_ok_iff (x t : Nat) (w : Exec) :
    (∃ v, CFiber.yield x t w = Except.ok v) ↔
      (w.status x = eFiberStatus.FIBER_RUNNING ∧ (w.stack t).head? = some x) := by
  constructor
  · rintro ⟨v, hv⟩
    exact ⟨(yield_ok_inv x t w v hv).1, (yield_ok_inv x t w v hv).2.1⟩
  · rintro ⟨hs, ht⟩
    exact ⟨_, yield_eq_of_running_top x t w hs ht⟩

/-- A RUNNING fiber on top of the stack `p :: l` yields successfully and leaves `l`. -/
theorem yield_of_cons (p t : Nat) (l : List Nat) (w : Exec)
    (hs : w.status p = eFiberStatus.FIBER_RUNNING) (hl : w.stack t = p :: l) :
    ∃ v, CFiber.yield p t w = Except.ok v ∧ v.stack t = l ∧
      (∀ q, v.status q = if q = p then eFiberStatus.FIBER_SUSPENDED else w.status q) := by
  obtain ⟨v, hv⟩ := (yield_ok_iff p t w).2 ⟨hs, by rw [hl]; rfl⟩
  refine ⟨v, hv, ?_, yield_ok_status p t w v hv⟩
  rw [yield_ok_stack p t w v hv t, if_pos rfl, hl]
  rfl

/-- C8. Nested resumption is last-in-first-out. For distinct SUSPENDED fibers
`A`, `B`, `C` resumed in this order on thread `t`: after each resume the top of
the stack is the fiber just resumed; in the state after the three resumes a
`yield` on thread `t` succeeds for `C` only, after `C` has yielded the top is
`B` and a `yield` succeeds for `B` only, after `B` has yielded the top is `A`
and a `yield` succeeds for `A` only, and after `A` has yielded the stack is the
one before the first resume; three yields in a row succeed exactly in the
order `C`, `B`, `A`. -/
theorem nested_resume_is_lifo (A B C t n1 n2 n3 : Nat) (w : Exec)
    (hAB : A ≠ B) (hAC : A ≠ C) (hBC : B ≠ C)
    (hA : w.status A = eFiberStatus.FIBER_SUSPENDED)
    (hB : w.status B = eFiberStatus.FIBER_SUSPENDED)
    (hC : w.status C = eFiberStatus.FIBER_SUSPENDED) :
    ((CFiber.resume A t n1 w).stack t).head? = some A ∧
    ((CFiber.resume B t n2 (CFiber.resume A t n1 w)).stack t).head? = some B ∧
    ((CFiber.resume C t n3 (CFiber.resume B t n2 (CFiber.resume A t n1 w))).stack t).head?
      = some C ∧
    (∀ x, (∃ v, CFiber.yield x t
        (CFiber.resume C t n3 (CFiber.resume B t n2 (CFiber.resume A t n1 w)))
          = Except.ok v) ↔ x = C) ∧
    (∃ v3 v2 v1,
      CFiber.yield C t (CFiber.resume C t n3 (CFiber.resume B t n2 (CFiber.resume A t n1 w)))
        = Except.ok v3 ∧
      (v3.stack t).head? = some B ∧
      (∀ x, (∃ v, CFiber.yield x t v3 = Except.ok v) ↔ x = B) ∧
      CFiber.yield B t v3 = Except.ok v2 ∧
      (v2.stack t).head? = some A ∧
      (∀ x, (∃ v, CFiber.yield x t v2 = Except.ok v) ↔ x = A) ∧
      CFiber.yield A t v2 = Except.ok v1 ∧
      v1.stack t = w.stack t) ∧
    (∀ x y z, (∃ v, run [Call.yield x t, Call.yield y t, Call.yield z t]
        (CFiber.resume C t n3 (CFiber.resume B t n2 (CFiber.resume A t n1 w)))
          = Except.ok v) ↔ (x = C ∧ y = B ∧ z = A)) := by
  -- the three states after the resumes
  have s1 : ∀ q, (CFiber.resume A t n1 w).status q =
      if q = A then eFiberStatus.FIBER_RUNNING else w.status q :=
    resume_status_of_suspended A t n1 w hA
  have k1 : (CFiber.resume A t n1 w).stack t = A :: w.stack t := by
    rw [resume_stack_of_suspended A t n1 w hA t, if_pos rfl]
  have hB1 : (CFiber.resume A t n1 w).status B = eFiberStatus.FIBER_SUSPENDED := by
    rw [s1 B, if_neg (Ne.symm hAB)]; exact hB
  have s2 : ∀ q, (CFiber.resume B t n2 (CFiber.resume A t n1 w)).status q =
      if q = B then eFiberStatus.FIBER_RUNNING else (CFiber.resume A t n1 w).status q :=
    resume_status_of_suspended B t n2 _ hB1
  have k2 : (CFiber.resume B t n2 (CFiber.resume A t n1 w)).stack t
      = B :: A :: w.stack t := by
    rw [resume_stack_of_suspended B t n2 _ hB1 t, if_pos rfl, k1]
  have hC2 : (CFiber.resume B t n2 (CFiber.resume A t n1 w)).status C
      = eFiberStatus.FIBER_SUSPENDED := by
    rw [s2 C, if_neg (Ne.symm hBC), s1 C, if_neg (Ne.symm hAC)]; exact hC
  have s3 : ∀ q, (CFiber.resume C t n3
      (CFiber.resume B t n2 (CFiber.resume A t n1 w))).status q =
      if q = C then eFiberStatus.FIBER_RUNNING
      else (CFiber.resume B t n2 (CFiber.resume A t n1 w)).status q :=
    resume_status_of_suspended C t n3 _ hC2
  have k3 : (CFiber.resume C t n3 (CFiber.resume B t n2 (CFiber.resume A t n1 w))).stack t
      = C :: B :: A :: w.stack t := by
    rw [resume_stack_of_suspended C t n3 _ hC2 t, if_pos rfl, k2]
  generalize CFiber.resume C t n3 (CFiber.resume B t n2 (CFiber.resume A t n1 w)) = w3
    at s3 k3 ⊢
  have rC : w3.status C = eFiberStatus.FIBER_RUNNING := by rw [s3 C, if_pos rfl]
  have rB : w3.status B = eFiberStatus.FIBER_RUNNING := by
    rw [s3 B, if_neg hBC, s2 B, if_pos rfl]
  have rA : w3.status A = eFiberStatus.FIBER_RUNNING := by
    rw [s3 A, if_neg hAC, s2 A, if_neg hAB, s1 A, if_pos rfl]
  -- the three yields
  obtain ⟨v3, y3, k4, s4⟩ := yield_of_cons C t _ w3 rC k3
  have rB4 : v3.status B = eFiberStatus.FIBER_RUNNING := by rw [s4 B, if_neg hBC]; exact rB
  have rA4 : v3.status A = eFiberStatus.FIBER_RUNNING := by rw [s4 A, if_neg hAC]; exact rA
  obtain ⟨v2, y2, k5, s5⟩ := yield_of_cons B t _ v3 rB4 k4
  have rA5 : v2.status A = eFiberStatus.FIBER_RUNNING := by rw [s5 A, if_neg hAB]; exact rA4
  obtain ⟨v1, y1, k6, _⟩ := yield_of_cons A t _ v2 rA5 k5
  -- who may yield in each of the states
  have only3 : ∀ x, (∃ v, CFiber.yield x t w3 = Except.ok v) ↔ x = C := by
    intro x
    rw [yield_ok_iff, k3]
    constructor
    · rintro ⟨_, h⟩
      simpa using h.symm
    · intro h
      rw [h]
      exact ⟨rC, rfl⟩
  have only2 : ∀ x, (∃ v, CFiber.yield x t v3 = Except.ok v) ↔ x = B := by
    intro x
    rw [yield_ok_iff, k4]
    constructor
    · rintro ⟨_, h⟩
      simpa using h.symm
    · intro h
      rw [h]
      exact ⟨rB4, rfl⟩
  have only1 : ∀ x, (∃ v, CFiber.yield x t v2 = Except.ok v) ↔ x = A := by
    intro x
    rw [yield_ok_iff, k5]
    constructor
    · rintro ⟨_, h⟩
      simpa using h.symm
    · intro h
      rw [h]
      exact ⟨rA5, rfl⟩
  refine ⟨by rw [k1]; rfl, by rw [k2]; rfl, by rw [k3]; rfl, only3,
    ⟨v3, v2, v1, y3, by rw [k4]; rfl, only2, y2, by rw [k5]; rfl, only1, y1, k6⟩, ?_⟩
  intro x y z
  constructor
  · rintro ⟨v, hv⟩
    cases hx : CFiber.yield x t w3 with
    | error e => simp [run, Call.exec, hx] at hv
    | ok a =>
      have ex : x = C := (only3 x).1 ⟨a, hx⟩
      subst ex
      rw [y3] at hx
      cases hx
      cases hy : CFiber.yield y t v3 with
      | error e => simp [run, Call.exec, y3, hy] at hv
      | ok b =>
        have ey : y = B := (only2 y).1 ⟨b, hy⟩
        subst ey
        rw [y2] at hy
        cases hy
        cases hz : CFiber.yield z t v2 with
        | error e => simp [run, Call.exec, y3, y2, hz] at hv
        | ok c => exact ⟨rfl, rfl, (only1 z).1 ⟨c, hz⟩⟩
  · rintro ⟨rfl, rfl, rfl⟩
    exact ⟨v1, by simp [run, Call.exec, y3, y2, y1]⟩

/-- Witness for C8: the SUSPENDED fibers 1, 2, 3 are resumed in this order on
thread 0, whose stack held `[9]`. -/
theorem nested_resume_is_lifo_witness :
    ((CFiber.resume 3 0 7 (CFiber.resume 2 0 6 (CFiber.resume 1 0 5
      (sample eFiberStatus.FIBER_SUSPENDED [9])))).stack 0).head? = some 3 ∧
    (∀ x y z, (∃ v, run [Call.yield x 0, Call.yield y 0, Call.yield z 0]
        (CFiber.resume 3 0 7 (CFiber.resume 2 0 6 (CFiber.resume 1 0 5
          (sample eFiberStatus.FIBER_SUSPENDED [9]))))
          = Except.ok v) ↔ (x = 3 ∧ y = 2 ∧ z = 1)) :=
  ⟨(nested_resume_is_lifo 1 2 3 0 5 6 7 (sample eFiberStatus.FIBER_SUSPENDED [9])
      (by decide) (by decide) (by decide) rfl rfl rfl).2.2.1,
   (nested_resume_is_lifo 1 2 3 0 5 6 7 (sample eFiberStatus.FIBER_SUSPENDED [9])
      (by decide) (by decide) (by decide) rfl rfl rfl).2.2.2.2.2⟩

/-- C9. On a SUSPENDED fiber and whatever the stacks hold, `resume` immediately
followed by `yield` succeeds; afterwards the status is SUSPENDED again, every
thread's stack is exactly what it was before the resume, every other fiber
object is untouched, and the fiber object itself differs from the initial one
in `resumeTimer` only. The log has grown by the `eswitch` and the `qswitch`. -/
theorem resume_then_yield_restores (self thread timer : Nat) (w : Exec)
    (h : w.status self = eFiberStatus.FIBER_SUSPENDED) :
    ∃ v, CFiber.yield self thread (CFiber.resume self thread timer w) = Except.ok v ∧
      v.status self = eFiberStatus.FIBER_SUSPENDED ∧
      (∀ u, v.stack u = w.stack u) ∧
      (∀ q, q ≠ self → v.mem.fibers q = w.mem.fibers q) ∧
      v.mem.fibers self = { w.mem.fibers self with resumeTimer := timer } ∧
      (∃ r1 r2 : SwitchRecord, v.switches = w.switches ++ [r1, r2] ∧
        r1.kind = SwitchKind.eswitch ∧ r2.kind = SwitchKind.qswitch) := by
  have hr : (CFiber.resume self thread timer w).status self = eFiberStatus.FIBER_RUNNING := by
    rw [resume_status_of_suspended self thread timer w h self, if_pos rfl]
  have hk : (CFiber.resume self thread timer w).stack thread = self :: w.stack thread := by
    rw [resume_stack_of_suspended self thread timer w h thread, if_pos rfl]
  have ht : ((CFiber.resume self thread timer w).mem.fiberStack thread).head? = some self := by
    have := hk
    simp only [Exec.stack] at this
    rw [this]; rfl
  have hy := yield_eq_of_running_top self thread (CFiber.resume self thread timer w) hr ht
  refine ⟨_, hy, ?_, ?_, ?_, ?_, ?_⟩
  · simp [Exec.status]
  · intro u
    by_cases hu : u = thread
    · subst hu
      have := hk
      simp only [Exec.stack] at this ⊢
      simp [this]
    · have := resume_stack_of_suspended self thread timer w h u
      rw [if_neg hu] at this
      simp only [Exec.stack] at this ⊢
      simp [Mem.setStack_fiberStack_other _ _ _ _ hu, this]
  · intro q hq
    simp [Mem.setFiber_fibers_other _ _ _ _ hq, resume_fibers_other self q thread timer w hq]
  · simp only [Exec.status] at h
    rw [resume_eq_of_suspended self thread timer w h]
    simp [h]
  · simp only [Exec.status] at h
    rw [resume_eq_of_suspended self thread timer w h]
    exact ⟨_, _, List.append_assoc _ _ _, rfl, rfl⟩

/-- Witness for C9: the SUSPENDED fiber 1 is resumed by thread 0, whose stack
holds `[7, 8]`, and yields at once. -/
theorem resume_then_yield_restores_witness :
    (sample eFiberStatus.FIBER_SUSPENDED [7, 8]).status 1 = eFiberStatus.FIBER_SUSPENDED ∧
    ∃ v, CFiber.yield 1 0 (CFiber.resume 1 0 42 (sample eFiberStatus.FIBER_SUSPENDED [7, 8]))
        = Except.ok v ∧
      v.status 1 = eFiberStatus.FIBER_SUSPENDED ∧ v.stack 0 = [7, 8] ∧
      (v.mem.fibers 1).resumeTimer = 42 := by
  refine ⟨rfl, ?_⟩
  obtain ⟨v, h1, h2, h3, _, h5, _⟩ :=
    resume_then_yield_restores 1 0 42 (sample eFiberStatus.FIBER_SUSPENDED [7, 8]) rfl
  exact ⟨v, h1, h2, h3 0, by rw [h5]⟩

/-- C10. A newly constructed `CFiber` has status SUSPENDED, so `is_running` and
`is_terminated` both return false; the first `resume` on it takes effect: the
status becomes RUNNING, the fiber is put on top of the calling thread's stack,
the timer is stored and exactly one `eswitch` is performed, with the pointer
returned by `makefiber` (member `callee`) as `from` and the constructor's
`runtime` argument as `to`. -/
theorem constructed_fiber_is_suspended
    (raw : CFiber) (w : Exec) (self manager group runtime makefiber thread timer : Nat) :
    (CFiber.ctor raw manager group runtime makefiber).status
      = eFiberStatus.FIBER_SUSPENDED ∧
    (CFiber.ctor raw manager group runtime makefiber).is_running = false ∧
    (CFiber.ctor raw manager group runtime makefiber).is_terminated = false ∧
    (w.construct self manager group runtime makefiber).status self
      = eFiberStatus.FIBER_SUSPENDED ∧
    (CFiber.resume self thread timer
      (w.construct self manager group runtime makefiber)).status self
        = eFiberStatus.FIBER_RUNNING ∧
    (CFiber.resume self thread timer
      (w.construct self manager group runtime makefiber)).stack thread
        = self :: w.stack thread ∧
    ((CFiber.resume self thread timer
      (w.construct self manager group runtime makefiber)).mem.fibers self).resumeTimer
        = timer ∧
    (∃ r : SwitchRecord,
      (CFiber.resume self thread timer
        (w.construct self manager group runtime makefiber)).switches = w.switches ++ [r] ∧
      r.kind = SwitchKind.eswitch ∧ r.from_ = makefiber ∧ r.to_ = runtime) := by
  have h0 := construct_status w self manager group runtime makefiber
  have hs : ((w.construct self manager group runtime makefiber).mem.fibers self).status
      = eFiberStatus.FIBER_SUSPENDED := h0
  refine ⟨rfl, rfl, rfl, h0, ?_, ?_, ?_, ?_⟩
  · rw [resume_status_of_suspended self thread timer _ h0 self, if_pos rfl]
  · rw [resume_stack_of_suspended self thread timer _ h0 thread, if_pos rfl]
    rfl
  · rw [resume_eq_of_suspended self thread timer _ hs]
    simp
  · rw [resume_eq_of_suspended self thread timer _ hs]
    exact ⟨_, rfl, rfl, by simp [Exec.construct, CFiber.ctor],
      by simp [Exec.construct, CFiber.ctor]⟩

/-! ### The arguments of the two switches -/

/-- C11 (as stated, refuted). The claim puts the fiber's `callee` member in the
`to` argument of the full switch. For the SUSPENDED fiber at address 1 of the
sample state (`callee = 101`, `runtime = 201`) the one `eswitch` that `resume`
performs has `to = 201`, the `runtime` member, and `from = 101`. -/
theorem resume_switch_to_is_not_callee :
    (sample eFiberStatus.FIBER_SUSPENDED []).status 1 = eFiberStatus.FIBER_SUSPENDED ∧
    ((sample eFiberStatus.FIBER_SUSPENDED []).mem.fibers 1).callee = 101 ∧
    (CFiber.resume 1 0 42 (sample eFiberStatus.FIBER_SUSPENDED [])).switches.map
      (fun r => (r.kind, r.from_, r.to_)) = [(SwitchKind.eswitch, 101, 201)] ∧
    ¬ (∀ r ∈ (CFiber.resume 1 0 42 (sample eFiberStatus.FIBER_SUSPENDED [])).switches,
        r.to_ = ((sample eFiberStatus.FIBER_SUSPENDED []).mem.fibers 1).callee) := by
  refine ⟨rfl, rfl, rfl, ?_⟩
  intro h
  have h1 := h ⟨SwitchKind.eswitch, 101, 201,
    (CFiber.resume 1 0 42 (sample eFiberStatus.FIBER_SUSPENDED [])).mem⟩
    (List.mem_singleton.2 rfl)
  exact absurd h1 (by decide)

/-- C11 (amended). In `resume` on a SUSPENDED fiber the one full switch that is
performed has the fiber's `callee` member as its `from` argument (the context
the resumer is saved into) and the fiber's `runtime` member as its `to`
argument (the context that is entered). -/
theorem resume_switch_arguments (self thread timer : Nat) (w : Exec)
    (h : w.status self = eFiberStatus.FIBER_SUSPENDED) :
    ∃ r : SwitchRecord,
      (CFiber.resume self thread timer w).switches = w.switches ++ [r] ∧
      r.kind = SwitchKind.eswitch ∧
      r.from_ = (w.mem.fibers self).callee ∧
      r.to_ = (w.mem.fibers self).runtime := by
  simp only [Exec.status] at h
  rw [resume_eq_of_suspended self thread timer w h]
  exact ⟨_, rfl, rfl, rfl, rfl⟩

/-- Witness for C11 (amended): the SUSPENDED fiber 1 of the sample state. -/
theorem resume_switch_arguments_witness :
    (sample eFiberStatus.FIBER_SUSPENDED []).status 1 = eFiberStatus.FIBER_SUSPENDED ∧
    ∃ r : SwitchRecord,
      (CFiber.resume 1 0 42 (sample eFiberStatus.FIBER_SUSPENDED [])).switches = [] ++ [r] ∧
      r.kind = SwitchKind.eswitch ∧ r.from_ = 101 ∧ r.to_ = 201 :=
  ⟨rfl, resume_switch_arguments 1 0 42 (sample eFiberStatus.FIBER_SUSPENDED []) rfl⟩

/-- C12 (as stated, refuted). The claim puts `callee` in the `from` argument
and `runtime` in the `to` argument of the quick switch. For the RUNNING fiber
at address 1 on top of thread 0's stack (`callee = 101`, `runtime = 201`) the
one `qswitch` that `yield` performs has `from = 201` and `to = 101`. -/
theorem yield_switch_is_not_callee_to_runtime :
    (sample eFiberStatus.FIBER_RUNNING [1]).status 1 = eFiberStatus.FIBER_RUNNING ∧
    ((sample eFiberStatus.FIBER_RUNNING [1]).mem.fibers 1).callee = 101 ∧
    ((sample eFiberStatus.FIBER_RUNNING [1]).mem.fibers 1).runtime = 201 ∧
    ∃ v, CFiber.yield 1 0 (sample eFiberStatus.FIBER_RUNNING [1]) = Except.ok v ∧
      v.switches.map (fun r => (r.kind, r.from_, r.to_)) = [(SwitchKind.qswitch, 201, 101)] ∧
      ¬ (∀ r ∈ v.switches,
          r.from_ = ((sample eFiberStatus.FIBER_RUNNING [1]).mem.fibers 1).callee ∧
          r.to_ = ((sample eFiberStatus.FIBER_RUNNING [1]).mem.fibers 1).runtime) := by
  refine ⟨rfl, rfl, rfl, _, rfl, rfl, ?_⟩
  intro h
  have h1 := (h _ (List.mem_singleton.2 rfl)).1
  exact absurd h1 (by decide)

/-- C12 (amended). In a successful `yield` the one quick switch that is
performed has the fiber's `runtime` member as its `from` argument (the context
the fiber is saved into) and the fiber's `callee` member as its `to` argument
(the resumer's context, which is entered). -/
theorem yield_switch_arguments (self thread : Nat) (w : Exec)
    (hs : w.status self = eFiberStatus.FIBER_RUNNING)
    (ht : (w.stack thread).head? = some self) :
    ∃ v, CFiber.yield self thread w = Except.ok v ∧
      ∃ r : SwitchRecord, v.switches = w.switches ++ [r] ∧
        r.kind = SwitchKind.qswitch ∧
        r.from_ = (w.mem.fibers self).runtime ∧
        r.to_ = (w.mem.fibers self).callee :=
  ⟨_, yield_eq_of_running_top self thread w hs ht, _, rfl, rfl, rfl, rfl⟩

/-- Witness for C12 (amended): the RUNNING fiber 1 on top of thread 0's stack. -/
theorem yield_switch_arguments_witness :
    (sample eFiberStatus.FIBER_RUNNING [1]).status 1 = eFiberStatus.FIBER_RUNNING ∧
    ((sample eFiberStatus.FIBER_RUNNING [1]).stack 0).head? = some 1 ∧
    ∃ v, CFiber.yield 1 0 (sample eFiberStatus.FIBER_RUNNING [1]) = Except.ok v ∧
      ∃ r : SwitchRecord, v.switches = [] ++ [r] ∧
        r.kind = SwitchKind.qswitch ∧ r.from_ = 201 ∧ r.to_ = 101 :=
  ⟨rfl, rfl, yield_switch_arguments 1 0 (sample eFiberStatus.FIBER_RUNNING [1]) rfl rfl⟩

/-! ### Two calls of `resume` in a row -/

theorem resume_log_of_suspended (self thread timer : Nat) (w : Exec)
    (h : w.status self = eFiberStatus.FIBER_SUSPENDED) :
    ∃ r : SwitchRecord,
      (CFiber.resume self thread timer w).switches = w.switches ++ [r] ∧
      r.kind = SwitchKind.eswitch ∧
      r.from_ = (w.mem.fibers self).callee ∧
      r.to_ = (w.mem.fibers self).runtime := by
  simp only [Exec.status] at h
  rw [resume_eq_of_suspended self thread timer w h]
  exact ⟨_, rfl, rfl, rfl, rfl⟩

theorem yield_log_of_ok (self thread : Nat) (w w1 : Exec)
    (h : CFiber.yield self thread w = Except.ok w1) :
    ∃ r : SwitchRecord, w1.switches = w.switches ++ [r] ∧
      r.kind = SwitchKind.qswitch ∧
      r.from_ = (w.mem.fibers self).runtime ∧
      r.to_ = (w.mem.fibers self).callee := by
  obtain ⟨hs, ht, _⟩ := yield_ok_inv self thread w w1 h
  have h2 := yield_eq_of_running_top self thread w hs ht
  rw [h] at h2
  simp only [Except.ok.injEq] at h2
  rw [h2]
  exact ⟨_, rfl, rfl, rfl, rfl⟩

/-- A `resume` of a fiber that the first `resume` has just switched to, made
before control has come back through a yield, finds it RUNNING and changes
nothing. -/
theorem resume_resume_at_switch (self thread thread2 timer timer2 : Nat) (w : Exec) :
    CFiber.resume self thread2 timer2 (CFiber.resume self thread timer w)
      = CFiber.resume self thread timer w := by
  apply resume_eq_of_not_suspended
  by_cases hs : w.status self = eFiberStatus.FIBER_SUSPENDED
  · have h1 := resume_status_of_suspended self thread timer w hs self
    rw [if_pos rfl] at h1
    simp only [Exec.status] at h1
    rw [h1]
    decide
  · rw [resume_eq_of_not_suspended self thread timer w hs]
    exact hs

/-- A `resume()` of a SUSPENDED fiber whose body yields: the call succeeds, the
fiber is SUSPENDED again, the stacks are as before, the timer of the call is
stored and two switches have been performed. -/
theorem resumeUntilYield_of_suspended (self thread timer : Nat) (w : Exec)
    (h : w.status self = eFiberStatus.FIBER_SUSPENDED) :
    ∃ v, CFiber.resumeUntilYield self thread timer w = Except.ok v ∧
      v.status self = eFiberStatus.FIBER_SUSPENDED ∧
      (∀ u, v.stack u = w.stack u) ∧
      (v.mem.fibers self).resumeTimer = timer ∧
      v.switches.length = w.switches.length + 2 := by
  have hs : (w.mem.fibers self).status = eFiberStatus.FIBER_SUSPENDED := h
  have hr : (CFiber.resume self thread timer w).status self = eFiberStatus.FIBER_RUNNING := by
    rw [resume_status_of_suspended self thread timer w h self, if_pos rfl]
  have hk : (CFiber.resume self thread timer w).stack thread = self :: w.stack thread := by
    rw [resume_stack_of_suspended self thread timer w h thread, if_pos rfl]
  obtain ⟨v, hy, hstack, hstatus⟩ := yield_of_cons self thread (w.stack thread)
    (CFiber.resume self thread timer w) hr hk
  obtain ⟨r2, hlog2, _⟩ := yield_log_of_ok self thread _ v hy
  obtain ⟨r1, hlog1, _⟩ := resume_log_of_suspended self thread timer w h
  refine ⟨v, ?_, ?_, ?_, ?_, ?_⟩
  · simp only [CFiber.resumeUntilYield, hs, if_true]
    exact hy
  · rw [hstatus self, if_pos rfl]
  · intro u
    by_cases hu : u = thread
    · rw [hu]; exact hstack
    · rw [yield_ok_stack self thread _ v hy u, if_neg hu,
        resume_stack_of_suspended self thread timer w h u, if_neg hu]
  · rw [(yield_ok_inv self thread _ v hy).2.2, resume_eq_of_suspended self thread timer w hs]
    simp
  · rw [hlog2, hlog1]
    simp

/-- A `resume()` of a fiber that is not SUSPENDED returns at once, with the
state it was called in. -/
theorem resumeUntilYield_of_not_suspended (self thread timer : Nat) (w : Exec)
    (h : w.status self ≠ eFiberStatus.FIBER_SUSPENDED) :
    CFiber.resumeUntilYield self thread timer w = Except.ok w := by
  have hs : (w.mem.fibers self).status ≠ eFiberStatus.FIBER_SUSPENDED := h
  simp only [CFiber.resumeUntilYield, hs, if_false]
  rw [resume_eq_of_not_suspended self thread timer w hs]

/-- C13 (as stated, refuted). The claim lets two calls of `resume()` in a row
leave the bookkeeping state of one call, also for a SUSPENDED fiber. For the
SUSPENDED fiber at address 1, resumed by thread 0 and yielding each time: one
call (timer 42) returns with `resumeTimer = 42` and 2 performed switches, two
calls in a row (timers 42, 43) return with `resumeTimer = 43` and 4 performed
switches. -/
theorem resume_twice_after_yield_differs :
    (sample eFiberStatus.FIBER_SUSPENDED [7]).status 1 = eFiberStatus.FIBER_SUSPENDED ∧
    ∃ v1 v2 : Exec,
      CFiber.resumeUntilYield 1 0 42 (sample eFiberStatus.FIBER_SUSPENDED [7]) = Except.ok v1 ∧
      CFiber.resumeTwice 1 0 42 43 (sample eFiberStatus.FIBER_SUSPENDED [7]) = Except.ok v2 ∧
      v1.switches.length = 2 ∧ v2.switches.length = 4 ∧
      (v1.mem.fibers 1).resumeTimer = 42 ∧ (v2.mem.fibers 1).resumeTimer = 43 ∧
      ¬ (v2.status 1 = v1.status 1 ∧
          (v2.mem.fibers 1).resumeTimer = (v1.mem.fibers 1).resumeTimer ∧
          v2.stack 0 = v1.stack 0 ∧
          v2.switches.length = v1.switches.length) := by
  refine ⟨rfl, _, _, rfl, rfl, rfl, rfl, rfl, rfl, ?_⟩
  intro h
  exact absurd h.2.1 (by decide)

/-- C13 (amended). Two calls of `resume()` in a row leave the bookkeeping state
of one call exactly when the second call finds the fiber not SUSPENDED. For a
fiber that is RUNNING or TERMINATED both calls return at once and nothing
changes; the same holds for a second `resume` of a fiber that has just been
switched to and has not yielded yet. For a SUSPENDED fiber whose body yields,
the first call returns with the fiber SUSPENDED again, so the second call
switches again: after two calls status and stacks are as after one, but
`resumeTimer` is the timer value of the second call and four context switches
have been performed instead of two. -/
theorem resume_twice_in_a_row (self thread timer timer2 : Nat) (w : Exec) :
    ((w.status self = eFiberStatus.FIBER_RUNNING ∨
        w.status self = eFiberStatus.FIBER_TERMINATED) →
      CFiber.resumeUntilYield self thread timer w = Except.ok w ∧
      CFiber.resumeTwice self thread timer timer2 w = Except.ok w) ∧
    (∀ thread2, CFiber.resume self thread2 timer2 (CFiber.resume self thread timer w)
      = CFiber.resume self thread timer w) ∧
    (w.status self = eFiberStatus.FIBER_SUSPENDED →
      ∃ v1 v2 : Exec,
        CFiber.resumeUntilYield self thread timer w = Except.ok v1 ∧
        CFiber.resumeTwice self thread timer timer2 w = Except.ok v2 ∧
        v1.status self = eFiberStatus.FIBER_SUSPENDED ∧
        v2.status self = eFiberStatus.FIBER_SUSPENDED ∧
        (∀ u, v1.stack u = w.stack u) ∧ (∀ u, v2.stack u = w.stack u) ∧
        (v1.mem.fibers self).resumeTimer = timer ∧
        (v2.mem.fibers self).resumeTimer = timer2 ∧
        v1.switches.length = w.switches.length + 2 ∧
        v2.switches.length = w.switches.length + 4) := by
  refine ⟨?_, ?_, ?_⟩
  · intro h
    have hne : w.status self ≠ eFiberStatus.FIBER_SUSPENDED := by
      rcases h with h | h <;> rw [h] <;> decide
    have h1 := resumeUntilYield_of_not_suspended self thread timer w hne
    have h2 := resumeUntilYield_of_not_suspended self thread timer2 w hne
    refine ⟨h1, ?_⟩
    simp only [CFiber.resumeTwice, h1]
    exact h2
  · intro thread2
    exact resume_resume_at_switch self thread thread2 timer timer2 w
  · intro h
    obtain ⟨v1, e1, s1, k1, t1, l1⟩ := resumeUntilYield_of_suspended self thread timer w h
    obtain ⟨v2, e2, s2, k2, t2, l2⟩ := resumeUntilYield_of_suspended self thread timer2 v1 s1
    refine ⟨v1, v2, e1, ?_, s1, s2, k1, fun u => (k2 u).trans (k1 u), t1, t2, l1, ?_⟩
    · simp only [CFiber.resumeTwice, e1]
      exact e2
    · rw [l2, l1]

/-- Witness for C13 (amended): two calls on the RUNNING fiber 1 change nothing;
two calls on the SUSPENDED fiber 1, which yields each time, leave thread 0's
stack `[7]` as it was and store the second timer value. -/
theorem resume_twice_in_a_row_witness :
    CFiber.resumeTwice 1 0 42 43 (sample eFiberStatus.FIBER_RUNNING [1])
      = Except.ok (sample eFiberStatus.FIBER_RUNNING [1]) ∧
    ∃ v2 : Exec,
      CFiber.resumeTwice 1 0 42 43 (sample eFiberStatus.FIBER_SUSPENDED [7]) = Except.ok v2 ∧
      v2.stack 0 = [7] ∧ (v2.mem.fibers 1).resumeTimer = 43 ∧ v2.switches.length = 4 := by
  refine ⟨((resume_twice_in_a_row 1 0 42 43 (sample eFiberStatus.FIBER_RUNNING [1])).1
    (Or.inl rfl)).2, ?_⟩
  obtain ⟨_, v2, _, e2, _, _, _, k2, _, t2, _, l2⟩ :=
    (resume_twice_in_a_row 1 0 42 43 (sample eFiberStatus.FIBER_SUSPENDED [7])).2.2 rfl
  exact ⟨v2, e2, k2 0, t2, l2⟩

/-! ### A yield returns to the resumer recorded by the resume -/

theorem resume_callee_runtime (p q t n : Nat) (w : Exec) :
    ((CFiber.resume p t n w).mem.fibers q).callee = (w.mem.fibers q).callee ∧
    ((CFiber.resume p t n w).mem.fibers q).runtime = (w.mem.fibers q).runtime := by
  by_cases hq : q = p
  · subst hq
    by_cases hs : (w.mem.fibers q).status = eFiberStatus.FIBER_SUSPENDED
    · rw [resume_eq_of_suspended q t n w hs]
      simp
    · rw [resume_eq_of_not_suspended q t n w hs]
      exact ⟨rfl, rfl⟩
  · rw [resume_fibers_other p q t n w hq]
    exact ⟨rfl, rfl⟩

theorem yield_callee_runtime (p q t : Nat) (w w1 : Exec)
    (h : CFiber.yield p t w = Except.ok w1) :
    (w1.mem.fibers q).callee = (w.mem.fibers q).callee ∧
    (w1.mem.fibers q).runtime = (w.mem.fibers q).runtime := by
  by_cases hq : q = p
  · subst hq
    rw [(yield_ok_inv q t w w1 h).2.2]
    simp
  · rw [yield_fibers_other p q t w w1 h hq]
    exact ⟨rfl, rfl⟩

theorem run_callee_runtime (q : Nat) (cs : List Call) :
    ∀ w w1 : Exec, run cs w = Except.ok w1 →
      (w1.mem.fibers q).callee = (w.mem.fibers q).callee ∧
      (w1.mem.fibers q).runtime = (w.mem.fibers q).runtime := by
  induction cs with
  | nil =>
    intro w w1 h
    simp only [run, Except.ok.injEq] at h
    rw [← h]
    exact ⟨rfl, rfl⟩
  | cons c cs ih =>
    intro w w1 h
    cases hc : c.exec w with
    | error e => simp [run, hc] at h
    | ok w2 =>
      simp only [run, hc] at h
      have h2 := ih w2 w1 h
      have h1 : (w2.mem.fibers q).callee = (w.mem.fibers q).callee ∧
          (w2.mem.fibers q).runtime = (w.mem.fibers q).runtime := by
        cases c with
        | resume p t n =>
          simp only [Call.exec, Except.ok.injEq] at hc
          rw [← hc]
          exact resume_callee_runtime p q t n w
        | yield p t => exact yield_callee_runtime p q t w w2 hc
      exact ⟨h2.1.trans h1.1, h2.2.trans h1.2⟩

/-- C20. `yield` performs the reverse of the switch of `resume`. Let a
SUSPENDED fiber be resumed, let any calls of `resume` / `yield` follow (none,
for an immediate yield), and let the fiber then yield successfully. The
`eswitch` of the resume has `from = callee` and `to = runtime`; the `qswitch`
of the yield has `from = runtime` and `to = callee`: the context the resume
saved the resumer into is the context the yield switches to, and the context
the resume switched to is the one the yield saves the fiber into. -/
theorem yield_reverses_resume (self thread thread2 timer : Nat) (cs : List Call)
    (w w1 w2 : Exec)
    (h : w.status self = eFiberStatus.FIBER_SUSPENDED)
    (hr : run cs (CFiber.resume self thread timer w) = Except.ok w1)
    (hy : CFiber.yield self thread2 w1 = Except.ok w2) :
    ∃ r1 r2 : SwitchRecord,
      (CFiber.resume self thread timer w).switches = w.switches ++ [r1] ∧
      w2.switches = w1.switches ++ [r2] ∧
      r1.kind = SwitchKind.eswitch ∧ r2.kind = SwitchKind.qswitch ∧
      r2.to_ = r1.from_ ∧ r2.from_ = r1.to_ ∧
      r1.from_ = (w.mem.fibers self).callee ∧ r1.to_ = (w.mem.fibers self).runtime := by
  obtain ⟨r1, e1, k1, f1, t1⟩ := resume_log_of_suspended self thread timer w h
  obtain ⟨r2, e2, k2, f2, t2⟩ := yield_log_of_ok self thread2 w1 w2 hy
  have hrun := run_callee_runtime self cs _ w1 hr
  have hres := resume_callee_runtime self self thread timer w
  refine ⟨r1, r2, e1, e2, k1, k2, ?_, ?_, f1, t1⟩
  · rw [t2, f1]
    exact hrun.1.trans hres.1
  · rw [f2, t1]
    exact hrun.2.trans hres.2

/-- Witness for C20: fiber 1 is resumed on thread 0, fiber 2 is resumed inside
it and yields, then fiber 1 yields. -/
theorem yield_reverses_resume_witness :
    (sample eFiberStatus.FIBER_SUSPENDED []).status 1 = eFiberStatus.FIBER_SUSPENDED ∧
    ∃ w1 w2 : Exec,
      run [Call.resume 2 0 5, Call.yield 2 0]
        (CFiber.resume 1 0 42 (sample eFiberStatus.FIBER_SUSPENDED [])) = Except.ok w1 ∧
      CFiber.yield 1 0 w1 = Except.ok w2 ∧
      ∃ r1 r2 : SwitchRecord,
        w2.switches = w1.switches ++ [r2] ∧
        r2.to_ = r1.from_ ∧ r2.from_ = r1.to_ ∧ r1.from_ = 101 ∧ r1.to_ = 201 := by
  refine ⟨rfl, _, _, rfl, rfl, ?_⟩
  obtain ⟨r1, r2, _, h2, _, _, h5, h6, h7, h8⟩ :=
    yield_reverses_resume 1 0 0 42 [Call.resume 2 0 5, Call.yield 2 0]
      (sample eFiberStatus.FIBER_SUSPENDED []) _ _ rfl rfl rfl
  exact ⟨r1, r2, h2, h5, h6, h7, h8⟩

end NativeExecutive

namespace rw

/-! ## `Raster::convertToPalette` -/

/-- C15. `Raster::convertToPalette` returns, with the native texture untouched
and no call made on pixel data, (a) when `paletteType` is `PALETTE_NONE`, also
for a raster without native data, and (b) when the raster has native data with
a provider whose current palette type is `paletteType` and `newRasterFormat`
is `RASTER_DEFAULT` or the current raster format. With any other `paletteType`
and no native data it throws "no native data". -/
theorem convertToPalette_early_exits (self : Raster) (paletteType : ePaletteType)
    (newRasterFormat : eRasterFormat) :
    (paletteType = ePaletteType.PALETTE_NONE →
      self.convertToPalette paletteType newRasterFormat
        = ⟨Outcome.returned (), self.platformData, []⟩) ∧
    (∀ platformTex texProvider,
      self.platformData = some platformTex →
      self.engineInterface.GetNativeTextureTypeProvider platformTex = some texProvider →
      texProvider.GetTexturePaletteType platformTex = paletteType →
      (newRasterFormat = eRasterFormat.RASTER_DEFAULT ∨
        texProvider.GetTextureRasterFormat platformTex = newRasterFormat) →
      self.convertToPalette paletteType newRasterFormat
        = ⟨Outcome.returned (), self.platformData, []⟩) ∧
    (paletteType ≠ ePaletteType.PALETTE_NONE → self.platformData = none →
      self.convertToPalette paletteType newRasterFormat
        = ⟨Outcome.threw (Exception.RwException "no native data"),
            self.platformData, []⟩) := by
  refine ⟨?_, ?_, ?_⟩
  · intro h
    simp [Raster.convertToPalette, h]
  · intro platformTex texProvider hp hprov hcur hfmt
    by_cases hnone : paletteType = ePaletteType.PALETTE_NONE
    · simp [Raster.convertToPalette, hnone]
    · simp only [Raster.convertToPalette, hnone, if_false, hp, hprov]
      rw [if_pos ⟨hcur, hfmt⟩]
  · intro hne hp
    simp [Raster.convertToPalette, hne, hp]

/-- Witness for C15: a raster without native data asked for `PALETTE_NONE`, a
raster that is already `PALETTE_8BIT`, and a raster without native data asked
for `PALETTE_8BIT`. -/
theorem convertToPalette_early_exits_witness :
    (sampleRaster false none).convertToPalette ePaletteType.PALETTE_NONE
        eRasterFormat.RASTER_8888 = ⟨Outcome.returned (), none, []⟩ ∧
    (sampleRaster true (some (sampleProvider ePaletteType.PALETTE_8BIT
        eRasterFormat.RASTER_888 true true))).convertToPalette ePaletteType.PALETTE_8BIT
        eRasterFormat.RASTER_DEFAULT = ⟨Outcome.returned (), some 10, []⟩ ∧
    (sampleRaster false none).convertToPalette ePaletteType.PALETTE_8BIT
        eRasterFormat.RASTER_DEFAULT
      = ⟨Outcome.threw (Exception.RwException "no native data"), none, []⟩ :=
  ⟨(convertToPalette_early_exits (sampleRaster false none) ePaletteType.PALETTE_NONE
      eRasterFormat.RASTER_8888).1 rfl,
   (convertToPalette_early_exits (sampleRaster true (some (sampleProvider
      ePaletteType.PALETTE_8BIT eRasterFormat.RASTER_888 true true)))
      ePaletteType.PALETTE_8BIT eRasterFormat.RASTER_DEFAULT).2.1 10
      (sampleProvider ePaletteType.PALETTE_8BIT eRasterFormat.RASTER_888 true true)
      rfl rfl rfl (Or.inl rfl),
   (convertToPalette_early_exits (sampleRaster false none) ePaletteType.PALETTE_8BIT
      eRasterFormat.RASTER_DEFAULT).2.2 (by decide) rfl⟩

/-- The calls of the part after the capability checks: the pixel data is
fetched and unset, and exactly one conversion is requested, with the selected
depth and the requested palette type. -/
theorem palettizeNative_calls (engineInterface : Interface)
    (texProvider : texNativeTypeProvider) (platformTex : PlatformTexture)
    (paletteType : ePaletteType) (newRasterFormat : eRasterFormat) (dstDepth : Nat) :
    ∃ (deallocate : Bool) (fmt : pixelFormat) (rest : List NativeCall),
      (Raster.palettizeNative engineInterface texProvider platformTex paletteType
        newRasterFormat dstDepth).calls =
        [NativeCall.GetPixelDataFromTexture, NativeCall.UnsetPixelDataFromTexture deallocate,
          NativeCall.SetStandalone, NativeCall.ConvertPixelData fmt] ++ rest ∧
      fmt.depth = dstDepth ∧ fmt.paletteType = paletteType ∧ fmt.rowAlignment = 4 ∧
      fmt.compressionType = eCompressionType.RWCOMPRESS_NONE ∧
      (∀ f, NativeCall.ConvertPixelData f ∉ rest) := by
  simp only [Raster.palettizeNative]
  split
  · exact ⟨_, _, [], rfl, rfl, rfl, rfl, rfl, by simp⟩
  · exact ⟨_, _, [NativeCall.FreePixels], rfl, rfl, rfl, rfl, rfl, by simp⟩
  · exact ⟨_, _, [NativeCall.FreePixels], rfl, rfl, rfl, rfl, rfl, by simp⟩
  · split
    · exact ⟨_, _, [NativeCall.SetPixelDataToTexture, NativeCall.FreePixels],
        rfl, rfl, rfl, rfl, rfl, by simp⟩
    · exact ⟨_, _, [NativeCall.SetPixelDataToTexture, NativeCall.DetachPixels],
        rfl, rfl, rfl, rfl, rfl, by simp⟩

/-- Past the early exits, with a depth selected: either a capability check
throws before any call on pixel data, or the native part runs with that depth. -/
theorem convertToPalette_of_depth (self : Raster) (paletteType : ePaletteType)
    (newRasterFormat : eRasterFormat) (platformTex : PlatformTexture)
    (texProvider : texNativeTypeProvider) (d : Nat)
    (hp : self.platformData = some platformTex)
    (hprov : self.engineInterface.GetNativeTextureTypeProvider platformTex = some texProvider)
    (hnone : paletteType ≠ ePaletteType.PALETTE_NONE)
    (hearly : ¬ (texProvider.GetTexturePaletteType platformTex = paletteType ∧
      (newRasterFormat = eRasterFormat.RASTER_DEFAULT ∨
        texProvider.GetTextureRasterFormat platformTex = newRasterFormat)))
    (hd : Raster.dstDepth paletteType = Outcome.returned d) :
    self.convertToPalette paletteType newRasterFormat =
      if texProvider.GetPixelCapabilities.supportsPalette = false then
        ⟨Outcome.threw (Exception.RwException
          "target raster does not support palette input"), self.platformData, []⟩
      else if texProvider.GetStorageCapabilities.pixelCaps.supportsPalette = false then
        ⟨Outcome.threw (Exception.RwException
          "target raster cannot store palette data"), self.platformData, []⟩
      else
        Raster.palettizeNative self.engineInterface texProvider platformTex paletteType
          newRasterFormat d := by
  simp only [Raster.convertToPalette, hnone, if_false, hp, hprov, hd]
  rw [if_neg hearly]

/-- What `convertToPalette_of_depth` gives for the conversion requests. -/
theorem convertToPalette_requests (self : Raster) (paletteType : ePaletteType)
    (newRasterFormat : eRasterFormat) (platformTex : PlatformTexture)
    (texProvider : texNativeTypeProvider) (d : Nat)
    (hp : self.platformData = some platformTex)
    (hprov : self.engineInterface.GetNativeTextureTypeProvider platformTex = some texProvider)
    (hnone : paletteType ≠ ePaletteType.PALETTE_NONE)
    (hearly : ¬ (texProvider.GetTexturePaletteType platformTex = paletteType ∧
      (newRasterFormat = eRasterFormat.RASTER_DEFAULT ∨
        texProvider.GetTextureRasterFormat platformTex = newRasterFormat)))
    (hd : Raster.dstDepth paletteType = Outcome.returned d) :
    (∀ fmt, NativeCall.ConvertPixelData fmt ∈
        (self.convertToPalette paletteType newRasterFormat).calls →
      fmt.depth = d ∧ fmt.paletteType = paletteType) ∧
    (texProvider.GetPixelCapabilities.supportsPalette = true →
      texProvider.GetStorageCapabilities.pixelCaps.supportsPalette = true →
      ∃ fmt, NativeCall.ConvertPixelData fmt ∈
          (self.convertToPalette paletteType newRasterFormat).calls ∧
        fmt.depth = d ∧ fmt.paletteType = paletteType) := by
  rw [convertToPalette_of_depth self paletteType newRasterFormat platformTex texProvider d
    hp hprov hnone hearly hd]
  obtain ⟨dealloc, fmt0, rest, hcalls, h1, h2, _, _, hrest⟩ :=
    palettizeNative_calls self.engineInterface texProvider platformTex paletteType
      newRasterFormat d
  constructor
  · intro fmt hmem
    by_cases hi : texProvider.GetPixelCapabilities.supportsPalette = false
    · rw [if_pos hi] at hmem
      cases hmem
    · rw [if_neg hi] at hmem
      by_cases hs : texProvider.GetStorageCapabilities.pixelCaps.supportsPalette = false
      · rw [if_pos hs] at hmem
        cases hmem
      · rw [if_neg hs, hcalls] at hmem
        simp only [List.cons_append, List.nil_append, List.mem_cons,
          NativeCall.ConvertPixelData.injEq] at hmem
        rcases hmem with h | h | h | h | h
        · cases h
        · cases h
        · cases h
        · rw [h]; exact ⟨h1, h2⟩
        · exact absurd h (hrest fmt)
  · intro hi hs
    rw [if_neg (by rw [hi]; decide), if_neg (by rw [hs]; decide), hcalls]
    exact ⟨fmt0, by simp, h1, h2⟩

/-- C16. When `Raster::convertToPalette` gets past its early exits (a palette
type other than `PALETTE_NONE`, native data with a provider, no early
termination), it selects destination depth 4 for `PALETTE_4BIT` and 8 for
`PALETTE_8BIT`: every conversion it requests carries that depth and the
palette type, and it does request one once both capability checks pass. For
every other palette type (`PALETTE_4BIT_LSB` included) it throws "unknown
palette type in raster palettization routine" with the native texture
untouched and no call made on pixel data. -/
theorem convertToPalette_depth_selection (self : Raster) (paletteType : ePaletteType)
    (newRasterFormat : eRasterFormat) (platformTex : PlatformTexture)
    (texProvider : texNativeTypeProvider)
    (hp : self.platformData = some platformTex)
    (hprov : self.engineInterface.GetNativeTextureTypeProvider platformTex = some texProvider)
    (hnone : paletteType ≠ ePaletteType.PALETTE_NONE)
    (hearly : ¬ (texProvider.GetTexturePaletteType platformTex = paletteType ∧
      (newRasterFormat = eRasterFormat.RASTER_DEFAULT ∨
        texProvider.GetTextureRasterFormat platformTex = newRasterFormat))) :
    (paletteType = ePaletteType.PALETTE_4BIT →
      Raster.dstDepth paletteType = Outcome.returned 4 ∧
      (∀ fmt, NativeCall.ConvertPixelData fmt ∈
          (self.convertToPalette paletteType newRasterFormat).calls →
        fmt.depth = 4 ∧ fmt.paletteType = ePaletteType.PALETTE_4BIT) ∧
      (texProvider.GetPixelCapabilities.supportsPalette = true →
        texProvider.GetStorageCapabilities.pixelCaps.supportsPalette = true →
        ∃ fmt, NativeCall.ConvertPixelData fmt ∈
            (self.convertToPalette paletteType newRasterFormat).calls ∧
          fmt.depth = 4 ∧ fmt.paletteType = ePaletteType.PALETTE_4BIT)) ∧
    (paletteType = ePaletteType.PALETTE_8BIT →
      Raster.dstDepth paletteType = Outcome.returned 8 ∧
      (∀ fmt, NativeCall.ConvertPixelData fmt ∈
          (self.convertToPalette paletteType newRasterFormat).calls →
        fmt.depth = 8 ∧ fmt.paletteType = ePaletteType.PALETTE_8BIT) ∧
      (texProvider.GetPixelCapabilities.supportsPalette = true →
        texProvider.GetStorageCapabilities.pixelCaps.supportsPalette = true →
        ∃ fmt, NativeCall.ConvertPixelData fmt ∈
            (self.convertToPalette paletteType newRasterFormat).calls ∧
          fmt.depth = 8 ∧ fmt.paletteType = ePaletteType.PALETTE_8BIT)) ∧
    (paletteType ≠ ePaletteType.PALETTE_4BIT → paletteType ≠ ePaletteType.PALETTE_8BIT →
      self.convertToPalette paletteType newRasterFormat =
        ⟨Outcome.threw (Exception.RwException
          "unknown palette type in raster palettization routine"),
          self.platformData, []⟩) := by
  refine ⟨?_, ?_, ?_⟩
  · intro h4
    have hd : Raster.dstDepth paletteType = Outcome.returned 4 := by
      rw [h4]; rfl
    have h := convertToPalette_requests self paletteType newRasterFormat platformTex
      texProvider 4 hp hprov hnone hearly hd
    rw [h4] at h ⊢
    exact ⟨rfl, h.1, h.2⟩
  · intro h8
    have hd : Raster.dstDepth paletteType = Outcome.returned 8 := by
      rw [h8]; rfl
    have h := convertToPalette_requests self paletteType newRasterFormat platformTex
      texProvider 8 hp hprov hnone hearly hd
    rw [h8] at h ⊢
    exact ⟨rfl, h.1, h.2⟩
  · intro h4 h8
    simp only [Raster.convertToPalette, hnone, if_false, hp, hprov, Raster.dstDepth, h4, h8]
    rw [if_neg hearly]

/-- Witness for C16: a non-palettized RASTER_8888 raster with palette support is
asked for `PALETTE_4BIT`; the same raster asked for `PALETTE_4BIT_LSB` throws. -/
theorem convertToPalette_depth_selection_witness :
    (∃ fmt, NativeCall.ConvertPixelData fmt ∈
        ((sampleRaster true (some (sampleProvider ePaletteType.PALETTE_NONE
          eRasterFormat.RASTER_8888 true true))).convertToPalette
          ePaletteType.PALETTE_4BIT eRasterFormat.RASTER_DEFAULT).calls ∧
      fmt.depth = 4 ∧ fmt.paletteType = ePaletteType.PALETTE_4BIT) ∧
    (sampleRaster true (some (sampleProvider ePaletteType.PALETTE_NONE
        eRasterFormat.RASTER_8888 true true))).convertToPalette
        ePaletteType.PALETTE_4BIT_LSB eRasterFormat.RASTER_DEFAULT =
      ⟨Outcome.threw (Exception.RwException
        "unknown palette type in raster palettization routine"), some 10, []⟩ :=
  ⟨((convertToPalette_depth_selection
      (sampleRaster true (some (sampleProvider ePaletteType.PALETTE_NONE
        eRasterFormat.RASTER_8888 true true)))
      ePaletteType.PALETTE_4BIT eRasterFormat.RASTER_DEFAULT 10
      (sampleProvider ePaletteType.PALETTE_NONE eRasterFormat.RASTER_8888 true true)
      rfl rfl (by decide) (by decide)).1 rfl).2.2 rfl rfl,
   (convertToPalette_depth_selection
      (sampleRaster true (some (sampleProvider ePaletteType.PALETTE_NONE
        eRasterFormat.RASTER_8888 true true)))
      ePaletteType.PALETTE_4BIT_LSB eRasterFormat.RASTER_DEFAULT 10
      (sampleProvider ePaletteType.PALETTE_NONE eRasterFormat.RASTER_8888 true true)
      rfl rfl (by decide) (by decide)).2.2 (by decide) (by decide)⟩

/-! ## `PalettizePixelData` -/

/-- The shortcut of `PalettizePixelData`: same known palette type, uncompressed
on both sides. -/
theorem palettize_same_type_returns (engineInterface : PaletteEngine)
    (pixelData : pixelDataTraversal) (dstPixelFormat : pixelFormat)
    (hsrc : pixelData.compressionType = eCompressionType.RWCOMPRESS_NONE)
    (hdst : dstPixelFormat.compressionType = eCompressionType.RWCOMPRESS_NONE)
    (hknown : dstPixelFormat.paletteType = ePaletteType.PALETTE_8BIT ∨
      dstPixelFormat.paletteType = ePaletteType.PALETTE_4BIT ∨
      dstPixelFormat.paletteType = ePaletteType.PALETTE_4BIT_LSB)
    (hsame : pixelData.paletteType = dstPixelFormat.paletteType) :
    PalettizePixelData engineInterface pixelData dstPixelFormat
      = ⟨Outcome.returned (), pixelData⟩ := by
  have hk : ¬ (dstPixelFormat.paletteType ≠ ePaletteType.PALETTE_8BIT ∧
      dstPixelFormat.paletteType ≠ ePaletteType.PALETTE_4BIT ∧
      dstPixelFormat.paletteType ≠ ePaletteType.PALETTE_4BIT_LSB) := by
    rintro ⟨h8, h4, hl⟩
    rcases hknown with h | h | h
    · exact h8 h
    · exact h4 h
    · exact hl h
  simp only [PalettizePixelData, hsrc, hdst, ne_eq, not_true_eq_false, if_false]
  rw [if_neg (by simpa using hk), if_pos hsame]

/-- C17 (as stated, refuted). The claim lets `PalettizePixelData` return whenever
the target palette type is a known one and equals the source palette type. For
a `PALETTE_8BIT` source whose compression type is not `RWCOMPRESS_NONE` and a
`PALETTE_8BIT` target, the first `assert` fails: the call does not return. -/
theorem palettize_same_type_compressed_aborts :
    (sampleFormat ePaletteType.PALETTE_8BIT 8 eCompressionType.RWCOMPRESS_NONE).paletteType
      = ePaletteType.PALETTE_8BIT ∧
    (sampleFormat ePaletteType.PALETTE_8BIT 8 eCompressionType.RWCOMPRESS_NONE).paletteType
      = (samplePixelData ePaletteType.PALETTE_8BIT (eCompressionType.other 1)).paletteType ∧
    (PalettizePixelData sampleEngine
      (samplePixelData ePaletteType.PALETTE_8BIT (eCompressionType.other 1))
      (sampleFormat ePaletteType.PALETTE_8BIT 8 eCompressionType.RWCOMPRESS_NONE)).completion
      = Outcome.aborted ∧
    ¬ ((PalettizePixelData sampleEngine
      (samplePixelData ePaletteType.PALETTE_8BIT (eCompressionType.other 1))
      (sampleFormat ePaletteType.PALETTE_8BIT 8 eCompressionType.RWCOMPRESS_NONE)).completion
      = Outcome.returned ()) := by
  decide

/-- C17 (amended). For uncompressed source and target: if the target palette
type is one of `PALETTE_8BIT`, `PALETTE_4BIT`, `PALETTE_4BIT_LSB` and equals
the palette type of the source pixel data, `PalettizePixelData` returns and
the pixel data is left exactly as it was, whatever engine is used and whatever
the target depth, raster format, colour order and row alignment are. -/
theorem palettize_same_type_is_noop (engineInterface : PaletteEngine)
    (pixelData : pixelDataTraversal) (dstPixelFormat : pixelFormat)
    (hsrc : pixelData.compressionType = eCompressionType.RWCOMPRESS_NONE)
    (hdst : dstPixelFormat.compressionType = eCompressionType.RWCOMPRESS_NONE)
    (hknown : dstPixelFormat.paletteType = ePaletteType.PALETTE_8BIT ∨
      dstPixelFormat.paletteType = ePaletteType.PALETTE_4BIT ∨
      dstPixelFormat.paletteType = ePaletteType.PALETTE_4BIT_LSB)
    (hsame : dstPixelFormat.paletteType = pixelData.paletteType) :
    PalettizePixelData engineInterface pixelData dstPixelFormat
      = ⟨Outcome.returned (), pixelData⟩ :=
  palettize_same_type_returns engineInterface pixelData dstPixelFormat hsrc hdst hknown
    hsame.symm

/-- Witness for C17 (amended): an uncompressed `PALETTE_4BIT` source and a
`PALETTE_4BIT` target of depth 8 with another raster format. -/
theorem palettize_same_type_is_noop_witness :
    PalettizePixelData sampleEngine
      (samplePixelData ePaletteType.PALETTE_4BIT eCompressionType.RWCOMPRESS_NONE)
      (sampleFormat ePaletteType.PALETTE_4BIT 8 eCompressionType.RWCOMPRESS_NONE)
      = ⟨Outcome.returned (),
          samplePixelData ePaletteType.PALETTE_4BIT eCompressionType.RWCOMPRESS_NONE⟩ :=
  palettize_same_type_is_noop sampleEngine
    (samplePixelData ePaletteType.PALETTE_4BIT eCompressionType.RWCOMPRESS_NONE)
    (sampleFormat ePaletteType.PALETTE_4BIT 8 eCompressionType.RWCOMPRESS_NONE)
    rfl rfl (Or.inr (Or.inl rfl)) rfl

/-- The target is valid exactly for depth 8, and for depth 4 unless the palette
type is `PALETTE_8BIT` (for the three known palette types). -/
theorem paletteTarget_valid_iff (dstDepth : Nat) (conv : ePaletteType)
    (hknown : conv = ePaletteType.PALETTE_8BIT ∨ conv = ePaletteType.PALETTE_4BIT ∨
      conv = ePaletteType.PALETTE_4BIT_LSB) :
    (paletteTarget dstDepth conv).2 = false ↔
      ((dstDepth ≠ 8 ∧ dstDepth ≠ 4) ∨
        (dstDepth = 4 ∧ conv = ePaletteType.PALETTE_8BIT)) := by
  by_cases h8 : dstDepth = 8
  · subst h8
    rcases hknown with h | h | h <;> subst h <;> simp [paletteTarget]
  · by_cases h4 : dstDepth = 4
    · subst h4
      rcases hknown with h | h | h <;> subst h <;> simp [paletteTarget]
    · simp [paletteTarget, h8, h4]

/-- The only exception the palettization block throws is the failed allocation. -/
theorem palettize_completion (engineInterface : PaletteEngine)
    (pixelData : pixelDataTraversal) (dstPixelFormat : pixelFormat) (maxPaletteEntries : Nat) :
    (palettize engineInterface pixelData dstPixelFormat maxPaletteEntries).completion
        = Outcome.returned () ∨
    (palettize engineInterface pixelData dstPixelFormat maxPaletteEntries).completion
        = Outcome.aborted ∨
    (palettize engineInterface pixelData dstPixelFormat maxPaletteEntries).completion
        = Outcome.threw (Exception.RwException
          "failed to allocate palette color array in libimagequant palettitation algorithm") := by
  simp only [palettize]
  split
  · exact Or.inl rfl
  · split
    · split
      · exact Or.inr (Or.inl rfl)
      · split
        · exact Or.inr (Or.inr rfl)
        · exact Or.inl rfl
    · exact Or.inr (Or.inl rfl)

/-- Past both validations the call ends as the palettization block does. -/
theorem PalettizePixelData_completion_of_valid (engineInterface : PaletteEngine)
    (pixelData : pixelDataTraversal) (dstPixelFormat : pixelFormat)
    (hsrc : pixelData.compressionType = eCompressionType.RWCOMPRESS_NONE)
    (hdst : dstPixelFormat.compressionType = eCompressionType.RWCOMPRESS_NONE)
    (hknown : dstPixelFormat.paletteType = ePaletteType.PALETTE_8BIT ∨
      dstPixelFormat.paletteType = ePaletteType.PALETTE_4BIT ∨
      dstPixelFormat.paletteType = ePaletteType.PALETTE_4BIT_LSB)
    (hdiff : pixelData.paletteType ≠ dstPixelFormat.paletteType)
    (hvalid : (paletteTarget dstPixelFormat.depth dstPixelFormat.paletteType).2 = true) :
    (PalettizePixelData engineInterface pixelData dstPixelFormat).completion =
      (palettize engineInterface pixelData dstPixelFormat
        (paletteTarget dstPixelFormat.depth dstPixelFormat.paletteType).1).completion := by
  have hk : ¬ (dstPixelFormat.paletteType ≠ ePaletteType.PALETTE_8BIT ∧
      dstPixelFormat.paletteType ≠ ePaletteType.PALETTE_4BIT ∧
      dstPixelFormat.paletteType ≠ ePaletteType.PALETTE_4BIT_LSB) := by
    rintro ⟨h8, h4, hl⟩
    rcases hknown with h | h | h
    · exact h8 h
    · exact h4 h
    · exact hl h
  simp only [PalettizePixelData, hsrc, hdst, ne_eq, not_true_eq_false, if_false]
  rw [if_neg (by simpa using hk), if_neg hdiff, if_neg (by rw [hvalid]; decide)]
  split
  · next pd heq => rw [heq]
  · rfl

/-- C18. For uncompressed source and target, `PalettizePixelData` throws a
validation error exactly in two cases. It throws "unknown palette type target
in palettization routine" iff the target palette type is none of
`PALETTE_8BIT`, `PALETTE_4BIT`, `PALETTE_4BIT_LSB` (also when it equals the
source palette type). It throws "invalid palette depth in palettization
routine" iff the target palette type is one of the three, differs from the
source palette type, and the target depth is neither 8 nor 4 or is 4 with
`PALETTE_8BIT`. Taken together: one of the two is thrown iff the target palette
type is unknown, or it differs from the source palette type and the depth is
neither 8 nor 4 or is 4 with `PALETTE_8BIT`. -/
theorem palettize_validation_errors (engineInterface : PaletteEngine)
    (pixelData : pixelDataTraversal) (dstPixelFormat : pixelFormat)
    (hsrc : pixelData.compressionType = eCompressionType.RWCOMPRESS_NONE)
    (hdst : dstPixelFormat.compressionType = eCompressionType.RWCOMPRESS_NONE) :
    ((PalettizePixelData engineInterface pixelData dstPixelFormat).completion =
        Outcome.threw (Exception.RwException
          "unknown palette type target in palettization routine") ↔
      (dstPixelFormat.paletteType ≠ ePaletteType.PALETTE_8BIT ∧
        dstPixelFormat.paletteType ≠ ePaletteType.PALETTE_4BIT ∧
        dstPixelFormat.paletteType ≠ ePaletteType.PALETTE_4BIT_LSB)) ∧
    ((PalettizePixelData engineInterface pixelData dstPixelFormat).completion =
        Outcome.threw (Exception.RwException
          "invalid palette depth in palettization routine") ↔
      ((dstPixelFormat.paletteType = ePaletteType.PALETTE_8BIT ∨
          dstPixelFormat.paletteType = ePaletteType.PALETTE_4BIT ∨
          dstPixelFormat.paletteType = ePaletteType.PALETTE_4BIT_LSB) ∧
        dstPixelFormat.paletteType ≠ pixelData.paletteType ∧
        ((dstPixelFormat.depth ≠ 8 ∧ dstPixelFormat.depth ≠ 4) ∨
          (dstPixelFormat.depth = 4 ∧
            dstPixelFormat.paletteType = ePaletteType.PALETTE_8BIT)))) ∧
    (((PalettizePixelData engineInterface pixelData dstPixelFormat).completion =
        Outcome.threw (Exception.RwException
          "unknown palette type target in palettization routine") ∨
      (PalettizePixelData engineInterface pixelData dstPixelFormat).completion =
        Outcome.threw (Exception.RwException
          "invalid palette depth in palettization routine")) ↔
      ((dstPixelFormat.paletteType ≠ ePaletteType.PALETTE_8BIT ∧
          dstPixelFormat.paletteType ≠ ePaletteType.PALETTE_4BIT ∧
          dstPixelFormat.paletteType ≠ ePaletteType.PALETTE_4BIT_LSB) ∨
        (dstPixelFormat.paletteType ≠ pixelData.paletteType ∧
          ((dstPixelFormat.depth ≠ 8 ∧ dstPixelFormat.depth ≠ 4) ∨
            (dstPixelFormat.depth = 4 ∧
              dstPixelFormat.paletteType = ePaletteType.PALETTE_8BIT))))) := by
  by_cases hk : dstPixelFormat.paletteType ≠ ePaletteType.PALETTE_8BIT ∧
      dstPixelFormat.paletteType ≠ ePaletteType.PALETTE_4BIT ∧
      dstPixelFormat.paletteType ≠ ePaletteType.PALETTE_4BIT_LSB
  · -- the first validation throws
    have hc : (PalettizePixelData engineInterface pixelData dstPixelFormat).completion =
        Outcome.threw (Exception.RwException
          "unknown palette type target in palettization routine") := by
      simp only [PalettizePixelData, hsrc, hdst, ne_eq, not_true_eq_false, if_false]
      rw [if_pos (by simpa using hk)]
    have hnot : ¬ (dstPixelFormat.paletteType = ePaletteType.PALETTE_8BIT ∨
        dstPixelFormat.paletteType = ePaletteType.PALETTE_4BIT ∨
        dstPixelFormat.paletteType = ePaletteType.PALETTE_4BIT_LSB) := by
      rintro (h | h | h)
      · exact hk.1 h
      · exact hk.2.1 h
      · exact hk.2.2 h
    rw [hc]
    refine ⟨⟨fun _ => hk, fun _ => rfl⟩, ⟨fun h => ?_, fun h => absurd h.1 hnot⟩,
      ⟨fun _ => Or.inl hk, fun _ => Or.inl rfl⟩⟩
    exact absurd h (by decide)
  · have hknown : dstPixelFormat.paletteType = ePaletteType.PALETTE_8BIT ∨
        dstPixelFormat.paletteType = ePaletteType.PALETTE_4BIT ∨
        dstPixelFormat.paletteType = ePaletteType.PALETTE_4BIT_LSB := by
      by_contra hcon
      exact hk ⟨fun h => hcon (Or.inl h), fun h => hcon (Or.inr (Or.inl h)),
        fun h => hcon (Or.inr (Or.inr h))⟩
    by_cases hsame : pixelData.paletteType = dstPixelFormat.paletteType
    · -- the shortcut returns
      have hc : (PalettizePixelData engineInterface pixelData dstPixelFormat).completion =
          Outcome.returned () := by
        rw [palettize_same_type_returns engineInterface pixelData dstPixelFormat hsrc hdst
          hknown hsame]
      rw [hc]
      refine ⟨⟨fun h => (by cases h), fun h => absurd h hk⟩,
        ⟨fun h => (by cases h), fun h => absurd hsame.symm h.2.1⟩,
        ⟨fun h => ?_, fun h => ?_⟩⟩
      · rcases h with h | h <;> cases h
      · rcases h with h | h
        · exact absurd h hk
        · exact absurd hsame.symm h.1
    · have hdiff : dstPixelFormat.paletteType ≠ pixelData.paletteType :=
        fun h => hsame h.symm
      by_cases hvalid : (paletteTarget dstPixelFormat.depth dstPixelFormat.paletteType).2 = false
      · -- the second validation throws
        have hbad := (paletteTarget_valid_iff dstPixelFormat.depth dstPixelFormat.paletteType
          hknown).1 hvalid
        have hc : (PalettizePixelData engineInterface pixelData dstPixelFormat).completion =
            Outcome.threw (Exception.RwException
              "invalid palette depth in palettization routine") := by
          simp only [PalettizePixelData, hsrc, hdst, ne_eq, not_true_eq_false, if_false]
          rw [if_neg (by simpa using hk), if_neg hsame, if_pos hvalid]
        rw [hc]
        refine ⟨⟨fun h => ?_, fun h => absurd h hk⟩,
          ⟨fun _ => ⟨hknown, hdiff, hbad⟩, fun _ => rfl⟩,
          ⟨fun _ => Or.inr ⟨hdiff, hbad⟩, fun _ => Or.inr rfl⟩⟩
        exact absurd h (by decide)
      · -- both validations pass
        have hv : (paletteTarget dstPixelFormat.depth dstPixelFormat.paletteType).2 = true := by
          simpa using hvalid
        have hgood : ¬ ((dstPixelFormat.depth ≠ 8 ∧ dstPixelFormat.depth ≠ 4) ∨
            (dstPixelFormat.depth = 4 ∧
              dstPixelFormat.paletteType = ePaletteType.PALETTE_8BIT)) :=
          fun h => hvalid ((paletteTarget_valid_iff dstPixelFormat.depth
            dstPixelFormat.paletteType hknown).2 h)
        have hc := PalettizePixelData_completion_of_valid engineInterface pixelData
          dstPixelFormat hsrc hdst hknown hsame hv
        have hp := palettize_completion engineInterface pixelData dstPixelFormat
          (paletteTarget dstPixelFormat.depth dstPixelFormat.paletteType).1
        rw [← hc] at hp
        have hno1 : (PalettizePixelData engineInterface pixelData dstPixelFormat).completion ≠
            Outcome.threw (Exception.RwException
              "unknown palette type target in palettization routine") := by
          rcases hp with h | h | h <;> rw [h] <;> decide
        have hno2 : (PalettizePixelData engineInterface pixelData dstPixelFormat).completion ≠
            Outcome.threw (Exception.RwException
              "invalid palette depth in palettization routine") := by
          rcases hp with h | h | h <;> rw [h] <;> decide
        refine ⟨⟨fun h => absurd h hno1, fun h => absurd h hk⟩,
          ⟨fun h => absurd h hno2, fun h => absurd h.2.2 hgood⟩,
          ⟨fun h => ?_, fun h => ?_⟩⟩
        · rcases h with h | h
          · exact absurd h hno1
          · exact absurd h hno2
        · rcases h with h | h
          · exact absurd h hk
          · exact absurd h.2 hgood

/-- Witness for C18: a non-palettized uncompressed source; a target of
`PALETTE_8BIT` with depth 4 is rejected, a target of `PALETTE_NONE` is
rejected, a target of `PALETTE_8BIT` with depth 8 is palettized. -/
theorem palettize_validation_errors_witness :
    (PalettizePixelData sampleEngine
      (samplePixelData ePaletteType.PALETTE_NONE eCompressionType.RWCOMPRESS_NONE)
      (sampleFormat ePaletteType.PALETTE_8BIT 4 eCompressionType.RWCOMPRESS_NONE)).completion =
        Outcome.threw (Exception.RwException
          "invalid palette depth in palettization routine") ∧
    (PalettizePixelData sampleEngine
      (samplePixelData ePaletteType.PALETTE_NONE eCompressionType.RWCOMPRESS_NONE)
      (sampleFormat ePaletteType.PALETTE_NONE 8 eCompressionType.RWCOMPRESS_NONE)).completion =
        Outcome.threw (Exception.RwException
          "unknown palette type target in palettization routine") ∧
    (PalettizePixelData sampleEngine
      (samplePixelData ePaletteType.PALETTE_NONE eCompressionType.RWCOMPRESS_NONE)
      (sampleFormat ePaletteType.PALETTE_8BIT 8 eCompressionType.RWCOMPRESS_NONE)).completion ≠
        Outcome.threw (Exception.RwException
          "invalid palette depth in palettization routine") :=
  ⟨(palettize_validation_errors sampleEngine
      (samplePixelData ePaletteType.PALETTE_NONE eCompressionType.RWCOMPRESS_NONE)
      (sampleFormat ePaletteType.PALETTE_8BIT 4 eCompressionType.RWCOMPRESS_NONE)
      rfl rfl).2.1.2 (by decide),
   (palettize_validation_errors sampleEngine
      (samplePixelData ePaletteType.PALETTE_NONE eCompressionType.RWCOMPRESS_NONE)
      (sampleFormat ePaletteType.PALETTE_NONE 8 eCompressionType.RWCOMPRESS_NONE)
      rfl rfl).1.2 (by decide),
   fun h => absurd ((palettize_validation_errors sampleEngine
      (samplePixelData ePaletteType.PALETTE_NONE eCompressionType.RWCOMPRESS_NONE)
      (sampleFormat ePaletteType.PALETTE_8BIT 8 eCompressionType.RWCOMPRESS_NONE)
      rfl rfl).2.1.1 h).2.2 (by decide)⟩

end rw

namespace TxdExport

/-! ## `ExportImagesFromDictionary` -/

theorem openedFiles_append (a b : List Event) :
    openedFiles (a ++ b) = openedFiles a ++ openedFiles b := by
  simp [openedFiles, List.filterMap_append]

/-- For a texture with a raster the loop body opens exactly one file, named by
`targetFileName`, whatever the engine and the translator do afterwards. -/
theorem exportTexture_opened (rwEngine : Engine) (outputRoot : CFileTranslator)
    (txdFileName relPathFromRoot : filePath) (outputType : eOutputType)
    (imgFormat : String) (texHandle : TextureBase) (texRaster : Nat)
    (h : texHandle.raster = some texRaster) :
    openedFiles (exportTexture rwEngine outputRoot txdFileName relPathFromRoot outputType
      imgFormat texHandle).events =
      [targetFileName relPathFromRoot txdFileName outputType texHandle.name imgFormat] := by
  simp only [exportTexture, h]
  split
  · simp [openedFiles]
  · split
    · simp [openedFiles]
    · simp [openedFiles]
    · simp [openedFiles]
    · by_cases hfmt : stricmpIsZero imgFormat "RWTEX" = true
      · simp only [hfmt, if_true]
        split <;> simp [openedFiles]
      · simp only [hfmt]
        split <;> simp [openedFiles]

/-- For a texture without a raster the loop body does nothing. -/
theorem exportTexture_no_raster (rwEngine : Engine) (outputRoot : CFileTranslator)
    (txdFileName relPathFromRoot : filePath) (outputType : eOutputType)
    (imgFormat : String) (texHandle : TextureBase) (h : texHandle.raster = none) :
    (exportTexture rwEngine outputRoot txdFileName relPathFromRoot outputType
      imgFormat texHandle).events = [] ∧
    (exportTexture rwEngine outputRoot txdFileName relPathFromRoot outputType
      imgFormat texHandle).completion = rw.Outcome.returned () := by
  simp [exportTexture, h]

/-- The loop goes on after a body that returned, and ends with a body that did not. -/
theorem exportLoop_cons (rwEngine : Engine) (outputRoot : CFileTranslator)
    (txdFileName relPathFromRoot : filePath) (outputType : eOutputType)
    (imgFormat : String) (texHandle : TextureBase) (rest : List TextureBase) :
    ((exportTexture rwEngine outputRoot txdFileName relPathFromRoot outputType imgFormat
        texHandle).completion = rw.Outcome.returned () ∧
      (exportLoop rwEngine outputRoot txdFileName relPathFromRoot outputType imgFormat
        (texHandle :: rest)).events =
        (exportTexture rwEngine outputRoot txdFileName relPathFromRoot outputType imgFormat
          texHandle).events ++
        (exportLoop rwEngine outputRoot txdFileName relPathFromRoot outputType imgFormat
          rest).events ∧
      (exportLoop rwEngine outputRoot txdFileName relPathFromRoot outputType imgFormat
        (texHandle :: rest)).completion =
        (exportLoop rwEngine outputRoot txdFileName relPathFromRoot outputType imgFormat
          rest).completion) ∨
    ((exportTexture rwEngine outputRoot txdFileName relPathFromRoot outputType imgFormat
        texHandle).completion ≠ rw.Outcome.returned () ∧
      exportLoop rwEngine outputRoot txdFileName relPathFromRoot outputType imgFormat
        (texHandle :: rest) =
        exportTexture rwEngine outputRoot txdFileName relPathFromRoot outputType imgFormat
          texHandle) := by
  rw [exportLoop]
  split
  · next events u heq =>
    rw [heq]
    exact Or.inl ⟨rfl, rfl, rfl⟩
  · next hne =>
    refine Or.inr ⟨?_, rfl⟩
    intro hc
    cases hx : exportTexture rwEngine outputRoot txdFileName relPathFromRoot outputType
      imgFormat texHandle with
    | mk ev c =>
      rw [hx] at hc
      simp only at hc
      rw [hc] at hx
      exact hne ev () hx

/-- The files opened by the loop are an initial part of the expected ones, and
all of them when the loop returns. -/
theorem exportLoop_opened (rwEngine : Engine) (outputRoot : CFileTranslator)
    (txdFileName relPathFromRoot : filePath) (outputType : eOutputType)
    (imgFormat : String) (textures : List TextureBase) :
    (∃ notReached,
      (textures.filter (fun texHandle => texHandle.raster.isSome)).map
        (fun texHandle =>
          targetFileName relPathFromRoot txdFileName outputType texHandle.name imgFormat) =
      openedFiles (exportLoop rwEngine outputRoot txdFileName relPathFromRoot outputType
        imgFormat textures).events ++ notReached) ∧
    ((exportLoop rwEngine outputRoot txdFileName relPathFromRoot outputType
        imgFormat textures).completion = rw.Outcome.returned () →
      openedFiles (exportLoop rwEngine outputRoot txdFileName relPathFromRoot outputType
        imgFormat textures).events =
      (textures.filter (fun texHandle => texHandle.raster.isSome)).map
        (fun texHandle =>
          targetFileName relPathFromRoot txdFileName outputType texHandle.name imgFormat)) := by
  induction textures with
  | nil => exact ⟨⟨[], rfl⟩, fun _ => rfl⟩
  | cons texHandle rest ih =>
    obtain ⟨⟨notReached, hpre⟩, hall⟩ := ih
    cases hr : texHandle.raster with
    | none =>
      have hnone := exportTexture_no_raster rwEngine outputRoot txdFileName relPathFromRoot
        outputType imgFormat texHandle hr
      have hexp : ((texHandle :: rest).filter (fun texHandle => texHandle.raster.isSome)).map
          (fun texHandle =>
            targetFileName relPathFromRoot txdFileName outputType texHandle.name imgFormat) =
          (rest.filter (fun texHandle => texHandle.raster.isSome)).map
          (fun texHandle =>
            targetFileName relPathFromRoot txdFileName outputType texHandle.name imgFormat) := by
        simp [List.filter_cons, hr]
      rcases exportLoop_cons rwEngine outputRoot txdFileName relPathFromRoot outputType
        imgFormat texHandle rest with ⟨_, hev, hco⟩ | ⟨hne, _⟩
      · rw [hexp, hev, hco, hnone.1, List.nil_append]
        exact ⟨⟨notReached, hpre⟩, hall⟩
      · exact absurd hnone.2 hne
    | some texRaster =>
      have hopen := exportTexture_opened rwEngine outputRoot txdFileName relPathFromRoot
        outputType imgFormat texHandle texRaster hr
      have hexp : ((texHandle :: rest).filter (fun texHandle => texHandle.raster.isSome)).map
          (fun texHandle =>
            targetFileName relPathFromRoot txdFileName outputType texHandle.name imgFormat) =
          targetFileName relPathFromRoot txdFileName outputType texHandle.name imgFormat ::
          (rest.filter (fun texHandle => texHandle.raster.isSome)).map
          (fun texHandle =>
            targetFileName relPathFromRoot txdFileName outputType texHandle.name imgFormat) := by
        simp [List.filter_cons, hr]
      rcases exportLoop_cons rwEngine outputRoot txdFileName relPathFromRoot outputType
        imgFormat texHandle rest with ⟨_, hev, hco⟩ | ⟨hne, heq⟩
      · rw [hexp, hev, hco, openedFiles_append, hopen]
        refine ⟨⟨notReached, ?_⟩, fun h => ?_⟩
        · rw [hpre]; rfl
        · rw [hall h]; rfl
      · rw [hexp, heq, hopen]
        exact ⟨⟨_, rfl⟩, fun h => absurd h hne⟩

/-- C14. The file that `ExportImagesFromDictionary` opens for a texture is named
`relPathFromRoot ++ namePart ++ textureName ++ "." ++ lowercase(imgFormat)`,
where `namePart` is empty for `OUTPUT_PLAIN`, `txdFileName ++ "_"` for
`OUTPUT_TXDNAME` and `txdFileName ++ "/"` for `OUTPUT_FOLDERS`. For a texture
with a raster the loop body opens exactly that file; for a texture without a
raster it does nothing. Over the whole dictionary the opened files are, in
iteration order, those of the textures with a raster: all of them when the
call returns, and an initial part of them when an exception ends the loop. -/
theorem export_opens_target_files (rwEngine : Engine) (texDict : TexDictionary)
    (outputRoot : CFileTranslator) (txdFileName relPathFromRoot : filePath)
    (outputType : eOutputType) (imgFormat : String) :
    (∀ texName,
      targetFileName relPathFromRoot txdFileName eOutputType.OUTPUT_PLAIN texName imgFormat
        = relPathFromRoot ++ "" ++ texName ++ "." ++ lowerCase imgFormat ∧
      targetFileName relPathFromRoot txdFileName eOutputType.OUTPUT_TXDNAME texName imgFormat
        = relPathFromRoot ++ (txdFileName ++ "_") ++ texName ++ "." ++ lowerCase imgFormat ∧
      targetFileName relPathFromRoot txdFileName eOutputType.OUTPUT_FOLDERS texName imgFormat
        = relPathFromRoot ++ (txdFileName ++ "/") ++ texName ++ "." ++ lowerCase imgFormat) ∧
    (∀ texHandle : TextureBase, texHandle.raster ≠ none →
      openedFiles (exportTexture rwEngine outputRoot txdFileName relPathFromRoot outputType
        imgFormat texHandle).events =
        [targetFileName relPathFromRoot txdFileName outputType texHandle.name imgFormat]) ∧
    (∀ texHandle : TextureBase, texHandle.raster = none →
      (exportTexture rwEngine outputRoot txdFileName relPathFromRoot outputType
        imgFormat texHandle).events = [] ∧
      (exportTexture rwEngine outputRoot txdFileName relPathFromRoot outputType
        imgFormat texHandle).completion = rw.Outcome.returned ()) ∧
    ((ExportImagesFromDictionary rwEngine texDict outputRoot txdFileName relPathFromRoot
        outputType imgFormat).completion = rw.Outcome.returned () →
      openedFiles (ExportImagesFromDictionary rwEngine texDict outputRoot txdFileName
        relPathFromRoot outputType imgFormat).events =
      expectedFiles texDict txdFileName relPathFromRoot outputType imgFormat) ∧
    (∃ notReached,
      expectedFiles texDict txdFileName relPathFromRoot outputType imgFormat =
      openedFiles (ExportImagesFromDictionary rwEngine texDict outputRoot txdFileName
        relPathFromRoot outputType imgFormat).events ++ notReached) := by
  refine ⟨?_, ?_, ?_, ?_, ?_⟩
  · intro texName
    refine ⟨?_, ?_, ?_⟩ <;> simp [targetFileName, String.append_assoc]
  · intro texHandle hne
    cases hr : texHandle.raster with
    | none => exact absurd hr hne
    | some texRaster =>
      exact exportTexture_opened rwEngine outputRoot txdFileName relPathFromRoot outputType
        imgFormat texHandle texRaster hr
  · intro texHandle hr
    exact exportTexture_no_raster rwEngine outputRoot txdFileName relPathFromRoot outputType
      imgFormat texHandle hr
  · exact (exportLoop_opened rwEngine outputRoot txdFileName relPathFromRoot outputType
      imgFormat texDict.textures).2
  · exact (exportLoop_opened rwEngine outputRoot txdFileName relPathFromRoot outputType
      imgFormat texDict.textures).1

/-- Witness for C14: the sample dictionary exported with `OUTPUT_TXDNAME` and
format `PNG`; every write succeeds. -/
theorem export_opens_target_files_witness :
    (ExportImagesFromDictionary (sampleEngine 0 (rw.Outcome.returned ())) sampleDict
      sampleRoot "gta" "models/" eOutputType.OUTPUT_TXDNAME "PNG").completion
        = rw.Outcome.returned () ∧
    openedFiles (ExportImagesFromDictionary (sampleEngine 0 (rw.Outcome.returned ()))
      sampleDict sampleRoot "gta" "models/" eOutputType.OUTPUT_TXDNAME "PNG").events
        = ["models/gta_wall.png", "models/gta_roof.png"] := by
  refine ⟨by decide, ?_⟩
  rw [(export_opens_target_files (sampleEngine 0 (rw.Outcome.returned ())) sampleDict
    sampleRoot "gta" "models/" eOutputType.OUTPUT_TXDNAME "PNG").2.2.2.1 (by decide)]
  decide

/-! ## `_discFileSentry_txdexport::OnSingletonFile` -/

/-- For a file whose extension is not `TXD` the `try` block does nothing. -/
theorem tryBlock_other_extension (self : _discFileSentry_txdexport)
    (buildRoot : CFileTranslator) (relPathFromRoot fileName extention : filePath)
    (sourceStream : Nat) (isInArchive : Bool)
    (hext : filePath.equals extention "TXD" false = false) :
    (self.tryBlock buildRoot relPathFromRoot fileName extention sourceStream isInArchive).events
      = [] ∧
    (self.tryBlock buildRoot relPathFromRoot fileName extention sourceStream
      isInArchive).anyWork = false ∧
    (self.tryBlock buildRoot relPathFromRoot fileName extention sourceStream
      isInArchive).completion = rw.Outcome.returned () := by
  simp [_discFileSentry_txdexport.tryBlock, hext]

/-- The local `anyWork` is set exactly when every step of the `try` block up to
and including the export returned and a dictionary was read; the block then
returns. -/
theorem tryBlock_anyWork (self : _discFileSentry_txdexport)
    (buildRoot : CFileTranslator) (relPathFromRoot fileName extention : filePath)
    (sourceStream : Nat) (isInArchive : Bool) :
    ((self.tryBlock buildRoot relPathFromRoot fileName extention sourceStream
        isInArchive).anyWork = true ↔
      (filePath.equals extention "TXD" false = true ∧
        self.module.OnProcessingFile (statusFileName isInArchive relPathFromRoot)
          = rw.Outcome.returned () ∧
        ∃ relPathFromRootWithoutFile texDict,
          buildRoot.GetRelativePathFromRoot relPathFromRoot false
            = rw.Outcome.returned relPathFromRootWithoutFile ∧
          (RwTexDictionaryStreamRead self.module.GetEngine sourceStream).completion
            = rw.Outcome.returned (some texDict) ∧
          (ExportImagesFromDictionary self.module.GetEngine texDict buildRoot fileName
            relPathFromRootWithoutFile self.config.outputType
            self.config.recImgFormat).completion = rw.Outcome.returned ())) ∧
    ((self.tryBlock buildRoot relPathFromRoot fileName extention sourceStream
        isInArchive).anyWork = true →
      (self.tryBlock buildRoot relPathFromRoot fileName extention sourceStream
        isInArchive).completion = rw.Outcome.returned ()) := by
  by_cases hext : filePath.equals extention "TXD" false = true
  · simp only [_discFileSentry_txdexport.tryBlock, hext, if_true, true_and]
    cases h1 : self.module.OnProcessingFile (statusFileName isInArchive relPathFromRoot) with
    | aborted => simp
    | threw e => simp
    | returned u =>
      cases h2 : buildRoot.GetRelativePathFromRoot relPathFromRoot false with
      | aborted => simp
      | threw e => simp
      | returned rel =>
        cases h3 : (RwTexDictionaryStreamRead self.module.GetEngine sourceStream).completion with
        | aborted => simp
        | threw e => simp
        | returned dict =>
          cases dict with
          | none => simp
          | some texDict =>
            cases h4 : (ExportImagesFromDictionary self.module.GetEngine texDict buildRoot
              fileName rel self.config.outputType self.config.recImgFormat).completion with
            | aborted => simp [h4]
            | threw e => simp [h4]
            | returned v => simp [h4]
  · have hf : filePath.equals extention "TXD" false = false := by simpa using hext
    have h := tryBlock_other_extension self buildRoot relPathFromRoot fileName extention
      sourceStream isInArchive hf
    rw [h.2.1]
    simp [hf]

/-- Once the hazard check has returned, the call returns `anyWork` when the `try`
block returned or threw an `rw::RwException`. -/
theorem OnSingletonFile_of_block (self : _discFileSentry_txdexport)
    (sourceRoot buildRoot : CFileTranslator) (relPathFromRoot fileName extention : filePath)
    (sourceStream : Nat) (isInArchive : Bool)
    (hhaz : self.module.GetEngine.CheckThreadHazards = rw.Outcome.returned ()) :
    ((self.tryBlock buildRoot relPathFromRoot fileName extention sourceStream
        isInArchive).completion = rw.Outcome.returned () →
      (self.OnSingletonFile sourceRoot buildRoot relPathFromRoot fileName extention
        sourceStream isInArchive).completion =
        rw.Outcome.returned (self.tryBlock buildRoot relPathFromRoot fileName extention
          sourceStream isInArchive).anyWork) ∧
    (∀ message, (self.tryBlock buildRoot relPathFromRoot fileName extention sourceStream
        isInArchive).completion = rw.Outcome.threw (rw.Exception.RwException message) →
      (self.OnSingletonFile sourceRoot buildRoot relPathFromRoot fileName extention
        sourceStream isInArchive).completion =
        rw.Outcome.returned (self.tryBlock buildRoot relPathFromRoot fileName extention
          sourceStream isInArchive).anyWork) ∧
    (∀ b, (self.OnSingletonFile sourceRoot buildRoot relPathFromRoot fileName extention
        sourceStream isInArchive).completion = rw.Outcome.returned b →
      b = (self.tryBlock buildRoot relPathFromRoot fileName extention sourceStream
        isInArchive).anyWork) ∧
    (self.OnSingletonFile sourceRoot buildRoot relPathFromRoot fileName extention
        sourceStream isInArchive).events =
      (self.tryBlock buildRoot relPathFromRoot fileName extention sourceStream
        isInArchive).events := by
  simp only [_discFileSentry_txdexport.OnSingletonFile, hhaz]
  refine ⟨?_, ?_, ?_, ?_⟩
  · intro h
    rw [h]
  · intro message h
    rw [h]
  · intro b hb
    split at hb
    · cases hb
    · cases hb
    · simp only [rw.Outcome.returned.injEq] at hb
      exact hb.symm
    · simp only [rw.Outcome.returned.injEq] at hb
      exact hb.symm
  · split <;> rfl

/-- C19. `OnSingletonFile` returns true exactly when the hazard check lets the
call go on, the extension equals `TXD` without regard to case, the status
report and the path computation return, a texture dictionary is read from the
source stream, and `ExportImagesFromDictionary` returns. For a file with any
other extension no call is made at all (no stream read, no status report, no
output) and the result is false. An `rw::RwException` that leaves the `try`
block (out of the status report, the path computation, the stream read or the
export) is swallowed and the result is false. -/
theorem OnSingletonFile_result (self : _discFileSentry_txdexport)
    (sourceRoot buildRoot : CFileTranslator) (relPathFromRoot fileName extention : filePath)
    (sourceStream : Nat) (isInArchive : Bool) :
    ((self.OnSingletonFile sourceRoot buildRoot relPathFromRoot fileName extention
        sourceStream isInArchive).completion = rw.Outcome.returned true ↔
      (self.module.GetEngine.CheckThreadHazards = rw.Outcome.returned () ∧
        filePath.equals extention "TXD" false = true ∧
        self.module.OnProcessingFile (statusFileName isInArchive relPathFromRoot)
          = rw.Outcome.returned () ∧
        ∃ relPathFromRootWithoutFile texDict,
          buildRoot.GetRelativePathFromRoot relPathFromRoot false
            = rw.Outcome.returned relPathFromRootWithoutFile ∧
          (RwTexDictionaryStreamRead self.module.GetEngine sourceStream).completion
            = rw.Outcome.returned (some texDict) ∧
          (ExportImagesFromDictionary self.module.GetEngine texDict buildRoot fileName
            relPathFromRootWithoutFile self.config.outputType
            self.config.recImgFormat).completion = rw.Outcome.returned ())) ∧
    (filePath.equals extention "TXD" false = false →
      (self.OnSingletonFile sourceRoot buildRoot relPathFromRoot fileName extention
        sourceStream isInArchive).events = [] ∧
      (self.module.GetEngine.CheckThreadHazards = rw.Outcome.returned () →
        (self.OnSingletonFile sourceRoot buildRoot relPathFromRoot fileName extention
          sourceStream isInArchive).completion = rw.Outcome.returned false)) ∧
    (self.module.GetEngine.CheckThreadHazards = rw.Outcome.returned () →
      ∀ message,
        (self.tryBlock buildRoot relPathFromRoot fileName extention sourceStream
          isInArchive).completion = rw.Outcome.threw (rw.Exception.RwException message) →
        (self.OnSingletonFile sourceRoot buildRoot relPathFromRoot fileName extention
          sourceStream isInArchive).completion = rw.Outcome.returned false) := by
  have hany := tryBlock_anyWork self buildRoot relPathFromRoot fileName extention
    sourceStream isInArchive
  refine ⟨⟨fun h => ?_, fun h => ?_⟩, fun hext => ⟨?_, fun hhaz => ?_⟩, fun hhaz message hm => ?_⟩
  · -- a returned `true` needs the hazard check to return and `anyWork` to be set
    cases hhaz : self.module.GetEngine.CheckThreadHazards with
    | aborted => simp [_discFileSentry_txdexport.OnSingletonFile, hhaz] at h
    | threw e => simp [_discFileSentry_txdexport.OnSingletonFile, hhaz] at h
    | returned u =>
      have hb := (OnSingletonFile_of_block self sourceRoot buildRoot relPathFromRoot fileName
        extention sourceStream isInArchive hhaz).2.2.1 true h
      exact ⟨rfl, hany.1.1 hb.symm⟩
  · obtain ⟨hhaz, hrest⟩ := h
    have hw := hany.1.2 hrest
    have hc := hany.2 hw
    rw [(OnSingletonFile_of_block self sourceRoot buildRoot relPathFromRoot fileName
      extention sourceStream isInArchive hhaz).1 hc, hw]
  · cases hhaz : self.module.GetEngine.CheckThreadHazards with
    | aborted => simp [_discFileSentry_txdexport.OnSingletonFile, hhaz]
    | threw e => simp [_discFileSentry_txdexport.OnSingletonFile, hhaz]
    | returned u =>
      rw [(OnSingletonFile_of_block self sourceRoot buildRoot relPathFromRoot fileName
        extention sourceStream isInArchive hhaz).2.2.2]
      exact (tryBlock_other_extension self buildRoot relPathFromRoot fileName extention
        sourceStream isInArchive hext).1
  · have hb := tryBlock_other_extension self buildRoot relPathFromRoot fileName extention
      sourceStream isInArchive hext
    rw [(OnSingletonFile_of_block self sourceRoot buildRoot relPathFromRoot fileName
      extention sourceStream isInArchive hhaz).1 hb.2.2, hb.2.1]
  · rw [(OnSingletonFile_of_block self sourceRoot buildRoot relPathFromRoot fileName
      extention sourceStream isInArchive hhaz).2.1 message hm]
    cases hw : (self.tryBlock buildRoot relPathFromRoot fileName extention sourceStream
      isInArchive).anyWork with
    | false => rfl
    | true =>
      have hc := hany.2 hw
      rw [hm] at hc
      cases hc

/-- Witness for C19: the file `models/gta.txd` (extension written `tXd`) is
exported and gives true; a file with extension `img` gives false with no call
made; a dictionary whose stream cannot be parsed (an `rw::RwException` out of the
stream read) gives false. -/
theorem OnSingletonFile_result_witness :
    ((sampleSentry 0 (rw.Outcome.returned ())).OnSingletonFile sampleRoot sampleRoot
      "models/gta.txd" "gta" "tXd" 3 true).completion = rw.Outcome.returned true ∧
    (((sampleSentry 0 (rw.Outcome.returned ())).OnSingletonFile sampleRoot sampleRoot
        "models/gta.img" "gta" "img" 3 true).events = [] ∧
      ((sampleSentry 0 (rw.Outcome.returned ())).OnSingletonFile sampleRoot sampleRoot
        "models/gta.img" "gta" "img" 3 true).completion = rw.Outcome.returned false) ∧
    (brokenSentry.OnSingletonFile sampleRoot sampleRoot
      "models/gta.txd" "gta" "txd" 3 false).completion = rw.Outcome.returned false := by
  refine ⟨?_, ⟨?_, ?_⟩, ?_⟩
  · exact (OnSingletonFile_result (sampleSentry 0 (rw.Outcome.returned ())) sampleRoot
      sampleRoot "models/gta.txd" "gta" "tXd" 3 true).1.2
      ⟨rfl, by decide, rfl, "models/", sampleDict, rfl, rfl, by decide⟩
  · exact ((OnSingletonFile_result (sampleSentry 0 (rw.Outcome.returned ())) sampleRoot
      sampleRoot "models/gta.img" "gta" "img" 3 true).2.1 (by decide)).1
  · exact ((OnSingletonFile_result (sampleSentry 0 (rw.Outcome.returned ())) sampleRoot
      sampleRoot "models/gta.img" "gta" "img" 3 true).2.1 (by decide)).2 rfl
  · exact (OnSingletonFile_result brokenSentry sampleRoot
      sampleRoot "models/gta.txd" "gta" "txd" 3 false).2.2 rfl "bad chunk" (by decide)

end TxdExport

namespace NativeExecutive

/-! ## The register frame of `struct Fiber` -/

/-- C21. On x86 and on AMD64 the register frame of `struct Fiber` holds the
instruction pointer (`eip`), the stack pointer (`esp`) and every callee-saved
register that the specification lists for the platform, each exactly once and
nothing else: `ebx, edi, esi, ebp` on x86; `rbx, rbp, rdi, rsi, r12` to `r15`
as `regType_t` and `xmm6` to `xmm15` as `xmmReg_t` on AMD64. In the struct the
frame is followed by `stack_base`, `stack_limit` and `except_info` (and then
`stackSize`). -/
theorem fiber_register_frame :
    (∀ arch, arch = Architecture._M_IX86 ∨ arch = Architecture._M_AMD64 →
      ∃ frame, Fiber.registerFrame arch = some frame ∧
        (∀ r ∈ specifiedRegisters arch, (memberNames frame).count r = 1) ∧
        (∀ r ∈ memberNames frame, r ∈ specifiedRegisters arch) ∧
        (memberNames frame).Nodup ∧
        (memberNames frame).length = (specifiedRegisters arch).length ∧
        ∃ rest, Fiber.members arch = some (frame ++
          ⟨"stack_base", MemberType.voidPtr⟩ :: ⟨"stack_limit", MemberType.voidPtr⟩ ::
          ⟨"except_info", MemberType.voidPtr⟩ :: rest)) ∧
    (Fiber.registerFrame Architecture._M_IX86).map memberNames
      = some ["ebx", "edi", "esi", "esp", "eip", "ebp"] ∧
    (Fiber.registerFrame Architecture._M_AMD64).map memberNames
      = some ["eip", "esp", "r12", "r13", "r14", "r15", "rdi", "rsi", "rbx", "rbp",
          "xmm6", "xmm7", "xmm8", "xmm9", "xmm10", "xmm11", "xmm12", "xmm13", "xmm14",
          "xmm15"] ∧
    (∀ frame, Fiber.registerFrame Architecture._M_IX86 = some frame →
      ∀ m ∈ frame, m.type = MemberType.regType_t) ∧
    (∀ frame, Fiber.registerFrame Architecture._M_AMD64 = some frame →
      ∀ m ∈ frame, m.type =
        (if m.name ∈ ["xmm6", "xmm7", "xmm8", "xmm9", "xmm10", "xmm11", "xmm12", "xmm13",
            "xmm14", "xmm15"] then MemberType.xmmReg_t else MemberType.regType_t)) := by
  refine ⟨?_, rfl, rfl, ?_, ?_⟩
  · intro arch harch
    rcases harch with h | h
    · subst h
      exact ⟨_, rfl, by decide, by decide, by decide, rfl, _, rfl⟩
    · subst h
      exact ⟨_, rfl, by decide, by decide, by decide, rfl, _, rfl⟩
  · intro frame h
    simp only [Fiber.registerFrame, Option.some.injEq] at h
    subst h
    decide
  · intro frame h
    simp only [Fiber.registerFrame, Option.some.injEq] at h
    subst h
    decide

/-- Witness for C21: the x86 frame holds `ebp` once and is followed by
`stack_base`; the AMD64 frame holds `xmm15` once. -/
theorem fiber_register_frame_witness :
    (∃ frame, Fiber.registerFrame Architecture._M_IX86 = some frame ∧
      (memberNames frame).count "ebp" = 1 ∧ (memberNames frame).length = 6) ∧
    (∃ frame, Fiber.registerFrame Architecture._M_AMD64 = some frame ∧
      (memberNames frame).count "xmm15" = 1 ∧ (memberNames frame).length = 20) := by
  obtain ⟨f1, h1, c1, _, _, l1, _⟩ := fiber_register_frame.1 Architecture._M_IX86 (Or.inl rfl)
  obtain ⟨f2, h2, c2, _, _, l2, _⟩ := fiber_register_frame.1 Architecture._M_AMD64 (Or.inr rfl)
  exact ⟨⟨f1, h1, c1 "ebp" (by decide), l1⟩, ⟨f2, h2, c2 "xmm15" (by decide), l2⟩⟩

end NativeExecutive
